import Mathlib

/-!
# Verification of the wendy-backend order lifecycle / dispatch / tracking core

Shallow embedding of the Python source under `src/src/` (Flask routes over a
relational store).  The database session is modelled as an explicit state value
(`Wendy.SysState`) holding the relevant tables as lists; each route handler
becomes a pure function from the state (plus the authenticated caller id and
the request parameters) to `Except Err SysState`: the handlers either commit a
mutated session (`.ok`) or return an error response before mutating anything
(`.error`), mirroring the fact that every error path in the source returns (or
rolls back) without committing.

Notes on the translation:
* Python string statuses and user types are kept as `String`, and the nested
  permission/transition dictionaries are translated as functions on strings
  with the same default-to-empty behaviour as `dict.get(key, default)`.
* SQLAlchemy primary keys are positive integers, so the Python truthiness test
  `if order.deliverer_id:` on a nullable foreign key is translated as
  `Option.isSome` (NULL ↔ `none`).
* Timestamps (`created_at`, `updated_at`) and audit notes are not relevant to
  any property proved here and are omitted from the records; "latest row"
  orderings (`created_at desc` over append-only tables) are translated as
  positional order of the list, newest last.
* Latitudes/longitudes and fees are exact decimal literals in the source’s
  requests, modelled as `ℚ`; the trigonometric Haversine computation is over
  `ℝ` with the rational inputs cast.
-/

namespace Wendy

/-- A row of the `users` table (src/src/models/wendy_models.py, class User):
only the fields read by the embedded routes are kept. -/
structure User where
  id : Nat
  user_type : String
  deriving DecidableEq, Repr

/-- A row of the `stores` table (wendy_models.py, class Store): `id` is the
primary key and `user_id` links the owning user account. -/
structure Store where
  id : Nat
  user_id : Nat
  deriving DecidableEq, Repr

/-- A row of the `deliverers` table (wendy_models.py, class Deliverer):
`id` is the primary key, `user_id` the linked user account. -/
structure Deliverer where
  id : Nat
  user_id : Nat
  is_online : Bool
  is_approved : Bool
  total_deliveries : Nat
  deriving DecidableEq, Repr

/-- A row of the `orders` table (wendy_models.py, class Order): the fields the
order-lifecycle routes read and write.  `deliverer_id = none` is SQL NULL. -/
structure Order where
  id : Nat
  client_id : Nat
  store_id : Nat
  deliverer_id : Option Nat
  status : String
  deriving DecidableEq, Repr

/-- A row of the `delivery_requests` table (wendy_models.py,
class DeliveryRequest). -/
structure DeliveryRequest where
  id : Nat
  client_id : Nat
  deliverer_id : Option Nat
  status : String
  deriving DecidableEq, Repr

/-- A row of the `deliverer_locations` table
(src/src/models/geolocation_models.py, class DelivererLocation). -/
structure DelivererLocation where
  deliverer_id : Nat
  latitude : ℚ
  longitude : ℚ
  accuracy : Option ℚ
  speed : Option ℚ
  heading : Option ℚ
  is_active : Bool
  deriving DecidableEq, Repr

/-- A row of the `order_trackings` table (geolocation_models.py,
class OrderTracking).  `estimated_arrival` and `distance_remaining` are the
real values computed by the handler. -/
structure OrderTracking where
  order_id : Nat
  deliverer_id : Nat
  latitude : ℚ
  longitude : ℚ
  status : String
  estimated_arrival : ℝ
  distance_remaining : ℝ

/-- The database session: the tables touched by the embedded routes.
Append-only tables (`locations`, `trackings`) grow at the tail, so the
`created_at desc` orderings of the source correspond to reading the lists
from the tail. -/
structure SysState where
  users : List User
  stores : List Store
  deliverers : List Deliverer
  orders : List Order
  delivery_requests : List DeliveryRequest
  locations : List DelivererLocation
  trackings : List OrderTracking

/-- Error responses returned by the handlers before any commit.  Each
constructor corresponds to one family of `return jsonify({'error': …}), code`
statements in the source. -/
inductive Err where
  /-- 403 "Acesso negado" -/
  | accessDenied
  /-- 404 "… não encontrado/encontrada" -/
  | notFound
  /-- 400 "Status é obrigatório" -/
  | statusRequired
  /-- 400 "Transição de X para Y não permitida" -/
  | invalidTransition
  /-- 400 "Pedido não está disponível para entrega" /
      "Solicitação não está disponível" -/
  | notAvailable
  /-- 400 "Pedido já foi aceito por outro entregador" /
      "Solicitação já foi aceita" -/
  | alreadyAccepted
  /-- 403 "Entregador deve estar online" -/
  | mustBeOnline
  /-- 400 "ID da solicitação inválido" -/
  | invalidId
  /-- 400 "Distância excede o máximo permitido" -/
  | distanceExceeded
  /-- 400 "Status inválido" -/
  | invalidStatus
  /-- 500: an unhandled exception reached the framework (e.g. an attribute
  access on `None`, or a handler whose signature cannot accept the routed
  parameters); the session is rolled back / never mutated. -/
  | serverError
  deriving DecidableEq, Repr

/-- `Table.query.get(pk)` on the orders table. -/
def findOrder (s : SysState) (order_id : Nat) : Option Order :=
  s.orders.find? (fun o => o.id == order_id)

/-- `User.query.get(pk)`. -/
def findUser (s : SysState) (user_id : Nat) : Option User :=
  s.users.find? (fun u => u.id == user_id)

/-- `Store.query.filter_by(user_id=user_id).first()`. -/
def findStoreByUser (s : SysState) (user_id : Nat) : Option Store :=
  s.stores.find? (fun st => st.user_id == user_id)

/-- `Deliverer.query.filter_by(user_id=user_id).first()`. -/
def findDelivererByUser (s : SysState) (user_id : Nat) : Option Deliverer :=
  s.deliverers.find? (fun d => d.user_id == user_id)

/-- `Deliverer.query.get(pk)` (primary key, not user id). -/
def findDeliverer (s : SysState) (deliverer_id : Nat) : Option Deliverer :=
  s.deliverers.find? (fun d => d.id == deliverer_id)

/-- `DeliveryRequest.query.get(pk)`. -/
def findRequest (s : SysState) (request_id : Nat) : Option DeliveryRequest :=
  s.delivery_requests.find? (fun r => r.id == request_id)

/-- Mutating one ORM `Order` object and committing: rewrite the row with the
matching id in place. -/
def updateOrderRow (orders : List Order) (order_id : Nat) (f : Order → Order) :
    List Order :=
  orders.map (fun o => if o.id == order_id then f o else o)

/-- Same for a `DeliveryRequest` row. -/
def updateRequestRow (rs : List DeliveryRequest) (request_id : Nat)
    (f : DeliveryRequest → DeliveryRequest) : List DeliveryRequest :=
  rs.map (fun r => if r.id == request_id then f r else r)

/-- Same for a `Deliverer` row, keyed by `user_id`. -/
def updateDelivererByUser (ds : List Deliverer) (user_id : Nat)
    (f : Deliverer → Deliverer) : List Deliverer :=
  ds.map (fun d => if d.user_id == user_id then f d else d)

/-- The nested `valid_transitions` dictionary of
`update_order_status` (src/src/routes/orders.py lines 270–287), as a function
`user_type → current status → allowed new statuses`, with the same
`dict.get(…, {})` / `dict.get(…, [])` defaults. -/
def valid_transitions (user_type : String) (current : String) : List String :=
  if user_type = "store" then
    if current = "pending" then ["accepted", "cancelled"]
    else if current = "accepted" then ["preparing"]
    else if current = "preparing" then ["ready"]
    else []
  else if user_type = "deliverer" then
    if current = "ready" then ["delivering"]
    else if current = "delivering" then ["delivered"]
    else []
  else if user_type = "admin" then
    if current = "pending" then ["accepted", "cancelled"]
    else if current = "accepted" then ["preparing", "cancelled"]
    else if current = "preparing" then ["ready", "cancelled"]
    else if current = "ready" then ["delivering", "cancelled"]
    else if current = "delivering" then ["delivered", "cancelled"]
    else []
  else []

/-- The `has_permission` computation of `update_order_status`
(orders.py lines 289–298): store callers must own the order's store,
deliverer callers must be the assigned deliverer, admins always pass,
anyone else (clients included) fails. -/
def has_permission (s : SysState) (user : User) (order : Order) : Bool :=
  if user.user_type == "store" then
    match findStoreByUser s user.id with
    | some st => order.store_id == st.id
    | none => false
  else if user.user_type == "deliverer" then
    order.deliverer_id == some user.id
  else
    user.user_type == "admin"

/-- `update_order_status` (orders.py lines 243–329), the shared
`PUT /orders/<id>/status` handler.  Check order: order lookup (404), empty
status (400), caller lookup (`user.user_type` on a missing user raises, 500),
permission (403), transition table (400); on success the order's status is
rewritten and committed. -/
def update_order_status (s : SysState) (user_id : Nat) (order_id : Nat)
    (new_status : String) : Except Err SysState :=
  match findOrder s order_id with
  | none => .error .notFound
  | some order =>
    if new_status = "" then .error .statusRequired
    else
      match findUser s user_id with
      | none => .error .serverError
      | some user =>
        if ¬ has_permission s user order then .error .accessDenied
        else if new_status ∈ valid_transitions user.user_type order.status then
          let orders' := updateOrderRow s.orders order_id
            (fun o => { o with status := new_status })
          .ok { s with orders := orders' }
        else .error .invalidTransition

/-- `accept_delivery` (orders.py lines 357–405), `POST /orders/<id>/accept`:
caller must be a deliverer-type user (no online/approved check is performed),
the order must exist, be in status "ready", and have `deliverer_id` NULL;
then the caller is bound and the status set to "delivering" in one commit. -/
def accept_delivery (s : SysState) (user_id : Nat) (order_id : Nat) :
    Except Err SysState :=
  match findUser s user_id with
  | none => .error .accessDenied
  | some user =>
    if user.user_type ≠ "deliverer" then .error .accessDenied
    else
      match findOrder s order_id with
      | none => .error .notFound
      | some order =>
        if order.status ≠ "ready" then .error .notAvailable
        else if order.deliverer_id.isSome then .error .alreadyAccepted
        else
          let orders' := updateOrderRow s.orders order_id
            (fun o => { o with deliverer_id := some user_id,
                               status := "delivering" })
          .ok { s with orders := orders' }

/-- `accept_delivery_request` (src/src/routes/deliverers.py lines 264–302),
`POST /deliverers/delivery-requests/<id>/accept`: caller must be a
deliverer-type user whose profile exists and is online (`is_approved` is NOT
checked); the request must exist, be "pending", and unassigned; then the
caller is bound and the status set to "accepted". -/
def accept_delivery_request (s : SysState) (user_id : Nat) (request_id : Nat) :
    Except Err SysState :=
  match findUser s user_id with
  | none => .error .accessDenied
  | some user =>
    if user.user_type ≠ "deliverer" then .error .accessDenied
    else
      match findDelivererByUser s user_id with
      | none => .error .mustBeOnline
      | some deliverer =>
        if ¬ deliverer.is_online then .error .mustBeOnline
        else
          match findRequest s request_id with
          | none => .error .notFound
          | some req =>
            if req.status ≠ "pending" then .error .notAvailable
            else if req.deliverer_id.isSome then .error .alreadyAccepted
            else
              let rs' := updateRequestRow s.delivery_requests request_id
                (fun r => { r with deliverer_id := some user_id,
                                   status := "accepted" })
              .ok { s with delivery_requests := rs' }

/-- The `valid_transitions` dictionary written inside
`update_delivery_request_status` (deliverers.py lines 342–347).  Dead data
in the source: the handler raises before ever reaching it (see
`update_delivery_request_status`); kept here only to document the table the
body would have consulted. -/
def request_transitions (current : String) : List String :=
  if current = "accepted" then ["picked_up", "cancelled"]
  else if current = "picked_up" then ["delivered"]
  else []

/-- `update_delivery_request_status` (deliverers.py lines 304–376),
`PUT /deliverers/delivery-requests/<id>/status`: a caller that is missing or
not deliverer-type gets the 403; for a deliverer-type caller the very next
statement, `SecurityValidator.sanitize_int(request_id)` (line 321), raises
`AttributeError` — `SecurityValidator` (src/src/security_improvements.py)
defines no `sanitize_int` — so the generic `except` handler rolls the
session back and returns 500.  Everything after line 321 — the
assignee-filtered lookup, the transition table of lines 342–347
(`request_transitions`) and the `total_deliveries` increment of line 362 —
is unreachable, so this route never commits anything. -/
def update_delivery_request_status (s : SysState) (user_id : Nat)
    (_request_id : Nat) (_new_status : String) : Except Err SysState :=
  match findUser s user_id with
  | none => .error .accessDenied
  | some user =>
    if user.user_type ≠ "deliverer" then .error .accessDenied
    else .error .serverError

/-- `math.radians` as used in `calculate_distance`. -/
noncomputable def radians (x : ℝ) : ℝ := x * Real.pi / 180

/-- `math.atan2 y x` (note the Python argument order `atan2(y, x)`). -/
noncomputable def atan2 (y x : ℝ) : ℝ :=
  if 0 < x then Real.arctan (y / x)
  else if x < 0 then
    if 0 ≤ y then Real.arctan (y / x) + Real.pi
    else Real.arctan (y / x) - Real.pi
  else
    if 0 < y then Real.pi / 2
    else if y < 0 then -(Real.pi / 2)
    else 0

/-- `calculate_distance` (src/src/routes/geolocation.py lines 10–24): the
Haversine great-circle distance with Earth radius 6371 km.  The source works
on floats; the embedding takes the rational coordinates of the state and
computes in `ℝ`. -/
noncomputable def calculate_distance (lat1 lon1 lat2 lon2 : ℚ) : ℝ :=
  let R : ℝ := 6371
  let dlat := radians ((lat2 : ℝ) - (lat1 : ℝ))
  let dlon := radians ((lon2 : ℝ) - (lon1 : ℝ))
  let a := Real.sin (dlat / 2) * Real.sin (dlat / 2) +
    Real.cos (radians (lat1 : ℝ)) * Real.cos (radians (lat2 : ℝ)) *
    Real.sin (dlon / 2) * Real.sin (dlon / 2)
  let c := 2 * atan2 (Real.sqrt a) (Real.sqrt (1 - a))
  R * c

/-- `estimate_arrival_time` (geolocation.py lines 26–34): `now` for
non-positive distances, else `now` plus `distance/avg_speed` hours expressed
in minutes.  Time is modelled as a real number of minutes since an arbitrary
epoch, `now` being the handler's call instant. -/
noncomputable def estimate_arrival_time (now : ℝ) (distance_km : ℝ)
    (avg_speed_kmh : ℝ := 25) : ℝ :=
  if distance_km ≤ 0 then now
  else now + distance_km / avg_speed_kmh * 60

/-- The hard-coded simulated destination of the tracking fan-out
(geolocation.py lines 86–87, comment "Coordenadas de exemplo (São Paulo)"):
every order uses this same point, orders carry no destination coordinates. -/
def dest_lat : ℚ := -23.5505

/-- Longitude of the hard-coded simulated destination. -/
def dest_lon : ℚ := -46.6333

/-- `update_deliverer_location` (geolocation.py lines 36–117),
`POST /geo/update-location`: caller must be a deliverer-type user whose
profile exists and is online (`is_approved` is NOT checked).  On success the
caller's previously active location rows are deactivated, one new active row
is appended, and one `OrderTracking` row is appended per order of the caller
in status "delivering", with status "in_transit" and distance/ETA computed
against the fixed simulated destination. -/
noncomputable def update_deliverer_location (s : SysState) (user_id : Nat)
    (now : ℝ) (latitude longitude : ℚ)
    (accuracy speed heading : Option ℚ) : Except Err SysState :=
  match findUser s user_id with
  | none => .error .accessDenied
  | some user =>
    if user.user_type ≠ "deliverer" then .error .accessDenied
    else
      match findDelivererByUser s user_id with
      | none => .error .mustBeOnline
      | some deliverer =>
        if ¬ deliverer.is_online then .error .mustBeOnline
        else
          let locs' := s.locations.map (fun l =>
            if l.deliverer_id == user_id && l.is_active then
              { l with is_active := false }
            else l)
          let newLoc : DelivererLocation :=
            { deliverer_id := user_id, latitude := latitude,
              longitude := longitude, accuracy := accuracy, speed := speed,
              heading := heading, is_active := true }
          let active_orders := s.orders.filter (fun o =>
            o.deliverer_id == some user_id && o.status == "delivering")
          let newTracks := active_orders.map (fun o =>
            let distance := calculate_distance latitude longitude dest_lat dest_lon
            { order_id := o.id, deliverer_id := user_id,
              latitude := latitude, longitude := longitude,
              status := "in_transit",
              estimated_arrival := estimate_arrival_time now distance,
              distance_remaining := distance : OrderTracking })
          .ok { s with locations := locs' ++ [newLoc],
                       trackings := s.trackings ++ newTracks }

/-- The `has_access` computation of `track_order` (geolocation.py lines
131–143): the order's client, the owning store, the assigned deliverer, or
any admin. -/
def track_access (s : SysState) (user : User) (order : Order) : Bool :=
  if user.user_type == "client" then
    order.client_id == user.id
  else if user.user_type == "store" then
    match findStoreByUser s user.id with
    | some st => order.store_id == st.id
    | none => false
  else if user.user_type == "deliverer" then
    order.deliverer_id == some user.id
  else
    user.user_type == "admin"

/-- The read-only payload of `track_order`. -/
structure TrackInfo where
  status : String
  latest_tracking : Option OrderTracking
  current_location : Option DelivererLocation
  tracking_history : List OrderTracking

/-- `track_order` (geolocation.py lines 119–176), `GET /geo/track-order/<id>`:
read-only.  A missing caller row makes `user.user_type` raise (500); a missing
order is 404; an unauthorized caller is 403; otherwise the latest tracking
row, the deliverer's single active location, and the last 10 tracking rows
(newest first) are returned. -/
def track_order (s : SysState) (user_id : Nat) (order_id : Nat) :
    Except Err TrackInfo :=
  match findUser s user_id with
  | none => .error .serverError
  | some user =>
    match findOrder s order_id with
    | none => .error .notFound
    | some order =>
      if ¬ track_access s user order then .error .accessDenied
      else
        let rows := s.trackings.filter (fun t => t.order_id == order_id)
        let current := match order.deliverer_id with
          | some did => s.locations.find? (fun l =>
              l.deliverer_id == did && l.is_active)
          | none => none
        .ok { status := order.status,
              latest_tracking := rows.getLast?,
              current_location := current,
              tracking_history := (rows.reverse).take 10 }

/-- `delete_deliverer` (src/src/routes/admin.py lines 496–531),
`DELETE /admin/deliverers/<id>/delete`: admin-only.  The deliverer row is
looked up by primary key; every order of that deliverer in an active status
(`accepted`, `preparing`, `ready`, `delivering`) has its assignment cleared
and its status reset to "pending"; then the deliverer row and its user row
are deleted. -/
def delete_deliverer (s : SysState) (caller_id : Nat) (deliverer_id : Nat) :
    Except Err SysState :=
  match findUser s caller_id with
  | none => .error .accessDenied
  | some caller =>
    if caller.user_type ≠ "admin" then .error .accessDenied
    else
      match findDeliverer s deliverer_id with
      | none => .error .notFound
      | some deliverer =>
        let orders' := s.orders.map (fun o =>
          if o.deliverer_id == some deliverer.user_id &&
              (o.status == "accepted" || o.status == "preparing" ||
               o.status == "ready" || o.status == "delivering") then
            { o with deliverer_id := none, status := "pending" }
          else o)
        .ok { s with orders := orders',
                     deliverers := s.deliverers.filter
                       (fun d => d.id != deliverer.id),
                     users := s.users.filter
                       (fun u => u.id != deliverer.user_id) }

/-- `update_order_status_admin` (admin.py lines 1417–1464),
`PUT /admin/orders/<int:order_id>/status`.  The route pattern carries an
`order_id` parameter but the handler is declared as
`def update_order_status_admin():` with no parameter (and its body reads a
name `order_id` that is never bound), so every dispatch of this route raises
`TypeError` before the handler body runs: the call always produces a 500
response and never touches the database.  The embedding therefore maps every
call to `Err.serverError`. -/
def update_order_status_admin (_ : SysState) (_caller_id : Nat)
    (_order_id : Nat) (_new_status : String) (_reason : String) :
    Except Err SysState :=
  .error .serverError

/-- `cancel_order_admin` (admin.py lines 1374–1415),
`POST /admin/orders/<int:order_id>/cancel`: same defect as
`update_order_status_admin` — the handler is declared without the `order_id`
parameter the route supplies, so every call fails with a 500 response and no
database change. -/
def cancel_order_admin (_ : SysState) (_caller_id : Nat) (_order_id : Nat)
    (_reason : String) : Except Err SysState :=
  .error .serverError

/-- A row of `allowed_cities` as read by the fee calculator
(admin.py): primary key, active flag, and the per-km override. -/
structure AllowedCity where
  id : Nat
  is_active : Bool
  delivery_fee_per_km : ℚ
  deriving DecidableEq, Repr

/-- The platform settings read through `get_platform_setting` in
`calculate_delivery_fee` (each stored as a string and parsed to float; the
source defaults are 2.0, 5.0 and 10.0 when the key is absent). -/
structure PlatformSettings where
  default_delivery_fee_per_km : ℚ
  minimum_delivery_fee : ℚ
  maximum_delivery_distance : ℚ
  deriving DecidableEq, Repr

/-- The successful payload of `calculate_delivery_fee`. -/
structure FeeResult where
  fee_per_km : ℚ
  calculated_fee : ℚ
  final_delivery_fee : ℚ
  deriving DecidableEq, Repr

/-- `calculate_delivery_fee` (admin.py lines 1228–1276),
`POST /admin/platform/calculate-delivery-fee`: the per-km rate is the city
override when a `city_id` was sent and that city exists and is active, else
the platform default; the fee is `distance * rate`; requests beyond
`maximum_delivery_distance` fail; otherwise the final fee is the maximum of
the computed fee and `minimum_delivery_fee`. -/
def calculate_delivery_fee (cities : List AllowedCity)
    (settings : PlatformSettings) (distance : ℚ) (city_id : Option Nat) :
    Except Err FeeResult :=
  let fee_per_km :=
    match city_id with
    | some cid =>
      match cities.find? (fun c => c.id == cid) with
      | some city =>
        if city.is_active then city.delivery_fee_per_km
        else settings.default_delivery_fee_per_km
      | none => settings.default_delivery_fee_per_km
    | none => settings.default_delivery_fee_per_km
  let calculated_fee := distance * fee_per_km
  let minimum_fee := settings.minimum_delivery_fee
  let maximum_distance := settings.maximum_delivery_distance
  if distance > maximum_distance then .error .distanceExceeded
  else
    .ok { fee_per_km := fee_per_km, calculated_fee := calculated_fee,
          final_delivery_fee := max calculated_fee minimum_fee }

/-- The operations of the embedded subsystem, for trace properties: each
constructor packages one handler call with its authenticated caller and
request data. -/
inductive Op where
  | updateStatus (user_id order_id : Nat) (new_status : String)
  | accept (user_id order_id : Nat)
  | acceptRequest (user_id request_id : Nat)
  | updateRequestStatus (user_id request_id : Nat) (new_status : String)
  | adminStatus (caller_id order_id : Nat) (new_status reason : String)
  | adminCancel (caller_id order_id : Nat) (reason : String)
  | deleteDeliverer (caller_id deliverer_id : Nat)
  | updateLoc (user_id : Nat) (now : ℝ) (latitude longitude : ℚ)
      (accuracy speed heading : Option ℚ)

/-- Whether an operation is the admin account-deletion route. -/
def Op.isDelete : Op → Bool
  | .deleteDeliverer _ _ => true
  | _ => false

/-- The handler response of one operation. -/
noncomputable def opResult (s : SysState) (op : Op) : Except Err SysState :=
  match op with
  | .updateStatus u o ns => update_order_status s u o ns
  | .accept u o => accept_delivery s u o
  | .acceptRequest u r => accept_delivery_request s u r
  | .updateRequestStatus u r ns => update_delivery_request_status s u r ns
  | .adminStatus c o ns reason => update_order_status_admin s c o ns reason
  | .adminCancel c o reason => cancel_order_admin s c o reason
  | .deleteDeliverer c d => delete_deliverer s c d
  | .updateLoc u now la lo acc sp hd =>
      update_deliverer_location s u now la lo acc sp hd

/-- Run one handler: an error response leaves the session untouched, a
success commits the new session. -/
noncomputable def applyOp (s : SysState) (op : Op) : SysState :=
  match opResult s op with
  | .ok s' => s'
  | .error _ => s

/-- Run a sequence of handler calls. -/
noncomputable def runOps (s : SysState) (ops : List Op) : SysState :=
  ops.foldl applyOp s

/-- Whether an operation is a deliverer claim (`accept_delivery` or
`accept_delivery_request`). -/
def Op.isClaim : Op → Bool
  | .accept _ _ => true
  | .acceptRequest _ _ => true
  | _ => false

/-- The status of an order in a session, if the order exists. -/
def statusOf (s : SysState) (order_id : Nat) : Option String :=
  (findOrder s order_id).map Order.status

/-- Number of active location rows of a deliverer. -/
def activeCount (s : SysState) (deliverer_id : Nat) : Nat :=
  s.locations.countP (fun l => l.deliverer_id == deliverer_id && l.is_active)

section Lemmas

/-- `find?` commutes with a row rewrite that does not change whether a row
matches the search predicate. -/
theorem find?_map_comm {α : Type} (g : α → α) (p : α → Bool)
    (h : ∀ a, p (g a) = p a) (l : List α) :
    (l.map g).find? p = (l.find? p).map g := by
  induction l with
  | nil => rfl
  | cons a t ih =>
    simp only [List.map_cons, List.find?]
    rw [h a]
    cases hp : p a
    · simpa using ih
    · rfl

/-- Looking an order up after an in-place row rewrite keyed by id. -/
theorem findOrder_updateOrderRow (s : SysState) (tid : Nat) (f : Order → Order)
    (hf : ∀ o, (f o).id = o.id) (oid : Nat) :
    (updateOrderRow s.orders tid f).find? (fun o => o.id == oid) =
      (s.orders.find? (fun o => o.id == oid)).map
        (fun o => if o.id == tid then f o else o) := by
  apply find?_map_comm
  intro a
  by_cases h : a.id == tid
  · simp [h, hf a]
  · simp [h]

/-- `findOrder` on a session whose orders table was rewritten in place. -/
theorem findOrder_set {s : SysState} {tid : Nat} {f : Order → Order}
    (hf : ∀ o, (f o).id = o.id) (oid : Nat) :
    findOrder { s with orders := updateOrderRow s.orders tid f } oid =
      (findOrder s oid).map (fun o => if o.id == tid then f o else o) := by
  unfold findOrder
  exact findOrder_updateOrderRow s tid f hf oid

/-- Looking a delivery request up after an in-place row rewrite keyed by id
and assigned deliverer. -/
theorem findRequest_updateRequestRow (rs : List DeliveryRequest) (tid : Nat)
    (f : DeliveryRequest → DeliveryRequest)
    (hf : ∀ r, (f r).id = r.id) (rid : Nat) :
    (updateRequestRow rs tid f).find? (fun r => r.id == rid) =
      (rs.find? (fun r => r.id == rid)).map
        (fun r => if r.id == tid then f r else r) := by
  apply find?_map_comm
  intro a
  by_cases h : a.id == tid
  · simp [h, hf a]
  · simp [h]

/-- `findRequest` on a session whose requests table was rewritten in place. -/
theorem findRequest_set {s : SysState} {tid : Nat}
    {f : DeliveryRequest → DeliveryRequest} (hf : ∀ r, (f r).id = r.id)
    (rid : Nat) :
    findRequest
        { s with delivery_requests :=
                   updateRequestRow s.delivery_requests tid f } rid =
      (findRequest s rid).map (fun r => if r.id == tid then f r else r) := by
  unfold findRequest
  exact findRequest_updateRequestRow s.delivery_requests tid f hf rid

/-- Looking a deliverer profile up after an in-place row rewrite keyed by
user id. -/
theorem findDeliverer_updateDelivererByUser (ds : List Deliverer) (tid : Nat)
    (f : Deliverer → Deliverer) (hf : ∀ d, (f d).user_id = d.user_id)
    (uid : Nat) :
    (updateDelivererByUser ds tid f).find? (fun d => d.user_id == uid) =
      (ds.find? (fun d => d.user_id == uid)).map
        (fun d => if d.user_id == tid then f d else d) := by
  apply find?_map_comm
  intro a
  by_cases h : a.user_id == tid
  · simp [h, hf a]
  · simp [h]

/-- Inversion of a successful `accept_delivery`: the caller is a
deliverer-type user, the order existed in status "ready" with no assignee,
and the committed session only rewrites that order row. -/
theorem accept_delivery_ok {s : SysState} {u oid : Nat} {s' : SysState}
    (h : accept_delivery s u oid = .ok s') :
    ∃ user order, findUser s u = some user ∧ user.user_type = "deliverer" ∧
      findOrder s oid = some order ∧ order.status = "ready" ∧
      order.deliverer_id = none ∧
      s' = { s with orders :=
                      updateOrderRow s.orders oid (fun o =>
                        { o with deliverer_id := some u,
                                 status := "delivering" }) } := by
  unfold accept_delivery at h
  split at h
  · exact absurd h (by simp)
  next user hu =>
    split at h
    · exact absurd h (by simp)
    next hty =>
      split at h
      · exact absurd h (by simp)
      next order hord =>
        split at h
        · exact absurd h (by simp)
        next hst =>
          split at h
          · exact absurd h (by simp)
          next hda =>
            refine ⟨user, order, hu, by simpa using hty, hord, by simpa using hst,
              by simpa using hda, ?_⟩
            simpa using h.symm

/-- Inversion of a successful `update_order_status`: the order and caller
exist, the caller has permission, the transition is in the table, and the
committed session only rewrites that order's status. -/
theorem update_order_status_ok {s : SysState} {u oid : Nat} {ns : String}
    {s' : SysState} (h : update_order_status s u oid ns = .ok s') :
    ∃ order user, findOrder s oid = some order ∧ ns ≠ "" ∧
      findUser s u = some user ∧ has_permission s user order = true ∧
      ns ∈ valid_transitions user.user_type order.status ∧
      s' = { s with orders :=
                      updateOrderRow s.orders oid (fun o =>
                        { o with status := ns }) } := by
  unfold update_order_status at h
  split at h
  · exact absurd h (by simp)
  next order hord =>
    split at h
    · exact absurd h (by simp)
    next hns =>
      split at h
      · exact absurd h (by simp)
      next user hu =>
        split at h
        · exact absurd h (by simp)
        next hperm =>
          split at h
          next hmem =>
            refine ⟨order, user, hord, hns, hu, by simpa using hperm, hmem, ?_⟩
            simpa using h.symm
          · exact absurd h (by simp)

/-- Direct evaluation of `update_order_status` when the order and caller
exist, the caller has permission, and the transition is in the table. -/
theorem update_order_status_eq_ok {s : SysState} {u oid : Nat} {ns : String}
    {order : Order} {user : User} (hord : findOrder s oid = some order)
    (hns : ns ≠ "") (hu : findUser s u = some user)
    (hperm : has_permission s user order = true)
    (hmem : ns ∈ valid_transitions user.user_type order.status) :
    update_order_status s u oid ns =
      .ok { s with orders :=
                     updateOrderRow s.orders oid (fun o =>
                       { o with status := ns }) } := by
  unfold update_order_status
  rw [hord]
  dsimp only
  rw [if_neg hns, hu]
  dsimp only
  rw [if_neg (by simp [hperm]), if_pos hmem]

/-- Direct evaluation of `update_order_status` when the transition is not in
the table: the handler answers 400 without mutating anything. -/
theorem update_order_status_eq_invalid {s : SysState} {u oid : Nat}
    {ns : String} {order : Order} {user : User}
    (hord : findOrder s oid = some order) (hns : ns ≠ "")
    (hu : findUser s u = some user)
    (hperm : has_permission s user order = true)
    (hmem : ns ∉ valid_transitions user.user_type order.status) :
    update_order_status s u oid ns = .error .invalidTransition := by
  unfold update_order_status
  rw [hord]
  dsimp only
  rw [if_neg hns, hu]
  dsimp only
  rw [if_neg (by simp [hperm]), if_neg hmem]

/-- Direct evaluation of `update_order_status` for a caller without
permission: 403, nothing mutated. -/
theorem update_order_status_eq_denied {s : SysState} {u oid : Nat}
    {ns : String} {order : Order} {user : User}
    (hord : findOrder s oid = some order) (hns : ns ≠ "")
    (hu : findUser s u = some user)
    (hperm : has_permission s user order = false) :
    update_order_status s u oid ns = .error .accessDenied := by
  unfold update_order_status
  rw [hord]
  dsimp only
  rw [if_neg hns, hu]
  dsimp only
  rw [if_pos (by simp [hperm])]

/-- Inversion of a successful `accept_delivery_request`: deliverer-type
caller with an online profile, request "pending" and unassigned, and only the
request row is rewritten. -/
theorem accept_delivery_request_ok {s : SysState} {u rid : Nat}
    {s' : SysState} (h : accept_delivery_request s u rid = .ok s') :
    ∃ user deliverer req, findUser s u = some user ∧
      user.user_type = "deliverer" ∧
      findDelivererByUser s u = some deliverer ∧ deliverer.is_online = true ∧
      findRequest s rid = some req ∧ req.status = "pending" ∧
      req.deliverer_id = none ∧
      s' = { s with delivery_requests :=
                      updateRequestRow s.delivery_requests rid (fun r =>
                        { r with deliverer_id := some u,
                                 status := "accepted" }) } := by
  unfold accept_delivery_request at h
  split at h
  · exact absurd h (by simp)
  next user hu =>
    split at h
    · exact absurd h (by simp)
    next hty =>
      split at h
      · exact absurd h (by simp)
      next deliverer hd =>
        split at h
        · exact absurd h (by simp)
        next hon =>
          split at h
          · exact absurd h (by simp)
          next req hreq =>
            split at h
            · exact absurd h (by simp)
            next hst =>
              split at h
              · exact absurd h (by simp)
              next hda =>
                refine ⟨user, deliverer, req, hu, by simpa using hty, hd,
                  by simpa using hon, hreq, by simpa using hst,
                  by simpa using hda, ?_⟩
                simpa using h.symm

/-- `update_delivery_request_status` never commits: every call answers an
error (403 for a missing or non-deliverer caller, 500 for a deliverer-type
caller, at the nonexistent `sanitize_int`). -/
theorem update_delivery_request_status_error (s : SysState) (u rid : Nat)
    (ns : String) :
    ∃ e, update_delivery_request_status s u rid ns = .error e := by
  unfold update_delivery_request_status
  rcases hu : findUser s u with _ | user
  · exact ⟨.accessDenied, rfl⟩
  · dsimp only
    by_cases hty : user.user_type = "deliverer"
    · rw [if_neg (by simpa using hty)]
      exact ⟨.serverError, rfl⟩
    · rw [if_pos (by simpa using hty)]
      exact ⟨.accessDenied, rfl⟩

/-- For a deliverer-type caller the request-status route always answers the
500 of the `AttributeError` raised at deliverers.py line 321. -/
theorem update_delivery_request_status_eq_serverError {s : SysState}
    {u : Nat} {user : User} (hu : findUser s u = some user)
    (hty : user.user_type = "deliverer") (rid : Nat) (ns : String) :
    update_delivery_request_status s u rid ns = .error .serverError := by
  unfold update_delivery_request_status
  rw [hu]
  dsimp only
  rw [if_neg (by simpa using hty)]

/-- Inversion of a successful `update_deliverer_location`: deliverer-type
caller with an online profile; the committed session deactivates the
caller's active location rows, appends one new active row, and appends the
tracking fan-out over the caller's "delivering" orders. -/
theorem update_deliverer_location_ok {s : SysState} {u : Nat} {now : ℝ}
    {la lo : ℚ} {acc sp hd : Option ℚ} {s' : SysState}
    (h : update_deliverer_location s u now la lo acc sp hd = .ok s') :
    ∃ user deliverer, findUser s u = some user ∧
      user.user_type = "deliverer" ∧
      findDelivererByUser s u = some deliverer ∧ deliverer.is_online = true ∧
      s' = { s with
              locations :=
                s.locations.map (fun l =>
                  if l.deliverer_id == u && l.is_active then
                    { l with is_active := false }
                  else l) ++
                [{ deliverer_id := u, latitude := la, longitude := lo,
                   accuracy := acc, speed := sp, heading := hd,
                   is_active := true }],
              trackings :=
                s.trackings ++
                (s.orders.filter (fun o =>
                  o.deliverer_id == some u && o.status == "delivering")).map
                  (fun o =>
                    { order_id := o.id, deliverer_id := u, latitude := la,
                      longitude := lo, status := "in_transit",
                      estimated_arrival := estimate_arrival_time now
                        (calculate_distance la lo dest_lat dest_lon),
                      distance_remaining :=
                        calculate_distance la lo dest_lat dest_lon }) } := by
  unfold update_deliverer_location at h
  split at h
  · exact absurd h (by simp)
  next user hu =>
    split at h
    · exact absurd h (by simp)
    next hty =>
      split at h
      · exact absurd h (by simp)
      next deliverer hdel =>
        split at h
        · exact absurd h (by simp)
        next hon =>
          refine ⟨user, deliverer, hu, by simpa using hty, hdel,
            by simpa using hon, ?_⟩
          simpa using h.symm

/-- Inversion of a successful `delete_deliverer`: admin caller, the profile
exists, and the committed session resets that deliverer's active orders to
"pending"/unassigned and removes the profile and user rows. -/
theorem delete_deliverer_ok {s : SysState} {c did : Nat} {s' : SysState}
    (h : delete_deliverer s c did = .ok s') :
    ∃ caller deliverer, findUser s c = some caller ∧
      caller.user_type = "admin" ∧ findDeliverer s did = some deliverer ∧
      s' = { s with
              orders := s.orders.map (fun o =>
                if o.deliverer_id == some deliverer.user_id &&
                    (o.status == "accepted" || o.status == "preparing" ||
                     o.status == "ready" || o.status == "delivering") then
                  { o with deliverer_id := none, status := "pending" }
                else o),
              deliverers := s.deliverers.filter
                (fun d => d.id != deliverer.id),
              users := s.users.filter
                (fun u => u.id != deliverer.user_id) } := by
  unfold delete_deliverer at h
  split at h
  · exact absurd h (by simp)
  next caller hc =>
    split at h
    · exact absurd h (by simp)
    next hty =>
      split at h
      · exact absurd h (by simp)
      next deliverer hdel =>
        refine ⟨caller, deliverer, hc, by simpa using hty, hdel, ?_⟩
        simpa using h.symm

/-- An operation whose handler answers an error leaves the session as it
was. -/
theorem applyOp_of_error {s : SysState} {op : Op} {e : Err}
    (h : opResult s op = .error e) : applyOp s op = s := by
  unfold applyOp
  rw [h]

/-- An operation whose handler commits produces the committed session. -/
theorem applyOp_of_ok {s s' : SysState} {op : Op}
    (h : opResult s op = .ok s') : applyOp s op = s' := by
  unfold applyOp
  rw [h]

/-- Every role's transition table is contained in the admin column: any
permitted `(role, current) → new` is also admin-permitted. -/
theorem mem_valid_transitions_admin {role cur ns : String}
    (h : ns ∈ valid_transitions role cur) :
    ns ∈ valid_transitions "admin" cur := by
  unfold valid_transitions at h ⊢
  split_ifs at h with h1 h2 h3 h4 h5 h6 h7 h8 h9 h10 h11 h12 <;> simp_all

/-- Failure of `accept_delivery` on an already assigned order: whatever the
caller, the handler answers an error (403/404 never arise here since the
order exists; the error is the already-accepted 400 when the status still
reads "ready", and the not-available 400 otherwise), and nothing changes. -/
theorem accept_delivery_error_of_assigned {s : SysState} {u oid d : Nat}
    {o : Order} (hord : findOrder s oid = some o)
    (hda : o.deliverer_id = some d) :
    ∃ e, accept_delivery s u oid = .error e := by
  unfold accept_delivery
  rcases hfu : findUser s u with _ | user
  · exact ⟨.accessDenied, rfl⟩
  · dsimp only
    by_cases hty : user.user_type = "deliverer"
    · rw [if_neg (by simpa using hty), hord]
      dsimp only
      by_cases hst : o.status = "ready"
      · rw [if_neg (by simpa using hst)]
        rw [if_pos (by simp [hda])]
        exact ⟨.alreadyAccepted, rfl⟩
      · rw [if_pos (by simpa using hst)]
        exact ⟨.notAvailable, rfl⟩
    · rw [if_pos (by simpa using hty)]
      exact ⟨.accessDenied, rfl⟩

/-- On an order that still reads "ready" but is already assigned, a
deliverer-type caller gets exactly the already-accepted 400. -/
theorem accept_delivery_already_accepted {s : SysState} {u oid d : Nat}
    {o : Order} {user : User} (hord : findOrder s oid = some o)
    (hda : o.deliverer_id = some d) (hst : o.status = "ready")
    (hu : findUser s u = some user) (hty : user.user_type = "deliverer") :
    accept_delivery s u oid = .error .alreadyAccepted := by
  unfold accept_delivery
  rw [hu]
  dsimp only
  rw [if_neg (by simpa using hty), hord]
  dsimp only
  rw [if_neg (by simp [hst]), if_pos (by simp [hda])]

/-- Failure of `accept_delivery_request` on an already assigned request. -/
theorem accept_request_error_of_assigned {s : SysState} {u rid d : Nat}
    {r : DeliveryRequest} (hreq : findRequest s rid = some r)
    (hda : r.deliverer_id = some d) :
    ∃ e, accept_delivery_request s u rid = .error e := by
  unfold accept_delivery_request
  rcases hfu : findUser s u with _ | user
  · exact ⟨.accessDenied, rfl⟩
  · dsimp only
    by_cases hty : user.user_type = "deliverer"
    · rw [if_neg (by simpa using hty)]
      rcases hfd : findDelivererByUser s u with _ | deliverer
      · exact ⟨.mustBeOnline, rfl⟩
      · dsimp only
        by_cases hon : deliverer.is_online
        · rw [if_neg (by simpa using hon), hreq]
          dsimp only
          by_cases hst : r.status = "pending"
          · rw [if_neg (by simpa using hst)]
            rw [if_pos (by simp [hda])]
            exact ⟨.alreadyAccepted, rfl⟩
          · rw [if_pos (by simpa using hst)]
            exact ⟨.notAvailable, rfl⟩
        · rw [if_pos (by simpa using hon)]
          exact ⟨.mustBeOnline, rfl⟩
    · rw [if_pos (by simpa using hty)]
      exact ⟨.accessDenied, rfl⟩

/-- Direct evaluation of `update_deliverer_location` when the caller's
profile is missing or offline: 403, nothing written. -/
theorem update_loc_offline {s : SysState} {u : Nat} {now : ℝ} {la lo : ℚ}
    {acc sp hdg : Option ℚ}
    (h : ∀ deliverer, findDelivererByUser s u = some deliverer →
      deliverer.is_online = false) :
    update_deliverer_location s u now la lo acc sp hdg = .error .accessDenied ∨
    update_deliverer_location s u now la lo acc sp hdg = .error .mustBeOnline := by
  unfold update_deliverer_location
  rcases hfu : findUser s u with _ | user
  · exact Or.inl rfl
  · dsimp only
    by_cases hty : user.user_type = "deliverer"
    · rw [if_neg (by simpa using hty)]
      rcases hfd : findDelivererByUser s u with _ | deliverer
      · exact Or.inr rfl
      · dsimp only
        rw [if_pos (by simp [h deliverer hfd])]
        exact Or.inr rfl
    · rw [if_pos (by simpa using hty)]
      exact Or.inl rfl

/-- Direct evaluation of a successful `update_deliverer_location`. -/
theorem update_loc_eq_ok {s : SysState} {u : Nat} {now : ℝ} {la lo : ℚ}
    {acc sp hdg : Option ℚ} {user : User} {deliverer : Deliverer}
    (hu : findUser s u = some user) (hty : user.user_type = "deliverer")
    (hdel : findDelivererByUser s u = some deliverer)
    (hon : deliverer.is_online = true) :
    ∃ s', update_deliverer_location s u now la lo acc sp hdg = .ok s' := by
  unfold update_deliverer_location
  rw [hu]
  dsimp only
  rw [if_neg (by simpa using hty), hdel]
  dsimp only
  rw [if_neg (by simp [hon])]
  exact ⟨_, rfl⟩

end Lemmas

/-- The edge relation of the §4.1 transition graph, read off the code's own
table: the admin column of `valid_transitions` is the union of every role's
permitted transitions (see `mem_valid_transitions_admin`), so it is the
transition graph itself. -/
def orderEdge (f t : String) : Prop := t ∈ valid_transitions "admin" f

/-- One observation step of an order's status between two sessions: either
unchanged (including "order absent"), or one edge of the graph. -/
def statusStep (a b : Option String) : Prop :=
  a = b ∨ ∃ f t, a = some f ∧ b = some t ∧ orderEdge f t

section TraceLemmas

/-- Status lookup after an in-place keyed order-row rewrite. -/
theorem statusOf_updateOrderRow {s : SysState} {tid : Nat} {f : Order → Order}
    (hf : ∀ o, (f o).id = o.id) (oid : Nat) :
    statusOf { s with orders := updateOrderRow s.orders tid f } oid =
      (findOrder s oid).map
        (fun o => if o.id == tid then (f o).status else o.status) := by
  unfold statusOf findOrder
  dsimp only
  rw [findOrder_updateOrderRow s tid f hf oid, Option.map_map]
  congr 1
  funext o
  by_cases hid : o.id == tid
  · simp [Function.comp, hid]
  · simp [Function.comp, hid]

/-- Any single non-deletion operation moves every order's status along the
transition graph or not at all. -/
theorem statusStep_applyOp (s : SysState) (op : Op)
    (hop : op.isDelete = false) (oid : Nat) :
    statusStep (statusOf s oid) (statusOf (applyOp s op) oid) := by
  cases op with
  | updateStatus u o ns =>
    rcases hr : update_order_status s u o ns with e | s'
    · rw [applyOp_of_error (show opResult s (.updateStatus u o ns) = .error e from hr)]
      exact Or.inl rfl
    · rw [applyOp_of_ok (show opResult s (.updateStatus u o ns) = .ok s' from hr)]
      obtain ⟨order, user, hord, -, -, -, hmem, rfl⟩ := update_order_status_ok hr
      rw [statusOf_updateOrderRow (by intro o'; rfl) oid]
      rcases hfind : findOrder s oid with _ | row
      · exact Or.inl (by unfold statusOf; rw [hfind]; rfl)
      · by_cases hid : row.id = o
        · have hrow : row = order := by
            have h3 : row.id = oid := by
              simpa using List.find?_some (p := fun o' : Order => o'.id == oid)
                hfind
            have hoo : oid = o := by omega
            subst hoo
            simpa using hfind.symm.trans hord
          refine Or.inr ⟨row.status, ns, ?_, ?_, ?_⟩
          · unfold statusOf
            rw [hfind]
            rfl
          · simp [hid]
          · rw [hrow]
            exact mem_valid_transitions_admin hmem
        · refine Or.inl ?_
          unfold statusOf
          rw [hfind]
          simp [hid]
  | accept u o =>
    rcases hr : accept_delivery s u o with e | s'
    · rw [applyOp_of_error (show opResult s (.accept u o) = .error e from hr)]
      exact Or.inl rfl
    · rw [applyOp_of_ok (show opResult s (.accept u o) = .ok s' from hr)]
      obtain ⟨user, order, -, -, hord, hst, -, rfl⟩ := accept_delivery_ok hr
      rw [statusOf_updateOrderRow (by intro o'; rfl) oid]
      rcases hfind : findOrder s oid with _ | row
      · exact Or.inl (by unfold statusOf; rw [hfind]; rfl)
      · by_cases hid : row.id = o
        · have hrow : row = order := by
            have h3 : row.id = oid := by
              simpa using List.find?_some (p := fun o' : Order => o'.id == oid)
                hfind
            have hoo : oid = o := by omega
            subst hoo
            simpa using hfind.symm.trans hord
          refine Or.inr ⟨row.status, "delivering", ?_, ?_, ?_⟩
          · unfold statusOf
            rw [hfind]
            rfl
          · simp [hid]
          · rw [hrow, hst]
            unfold orderEdge valid_transitions
            simp
        · refine Or.inl ?_
          unfold statusOf
          rw [hfind]
          simp [hid]
  | acceptRequest u r =>
    rcases hr : accept_delivery_request s u r with e | s'
    · rw [applyOp_of_error (show opResult s (.acceptRequest u r) = .error e from hr)]
      exact Or.inl rfl
    · rw [applyOp_of_ok (show opResult s (.acceptRequest u r) = .ok s' from hr)]
      obtain ⟨-, -, -, -, -, -, -, -, -, -, rfl⟩ := accept_delivery_request_ok hr
      exact Or.inl rfl
  | updateRequestStatus u r ns =>
    obtain ⟨e, he⟩ := update_delivery_request_status_error s u r ns
    rw [applyOp_of_error
      (show opResult s (.updateRequestStatus u r ns) = .error e from he)]
    exact Or.inl rfl
  | adminStatus c o ns reason =>
    rw [applyOp_of_error
      (show opResult s (.adminStatus c o ns reason) = .error .serverError from rfl)]
    exact Or.inl rfl
  | adminCancel c o reason =>
    rw [applyOp_of_error
      (show opResult s (.adminCancel c o reason) = .error .serverError from rfl)]
    exact Or.inl rfl
  | deleteDeliverer c d => simp [Op.isDelete] at hop
  | updateLoc u now la lo acc sp hdg =>
    rcases hr : update_deliverer_location s u now la lo acc sp hdg with e | s'
    · rw [applyOp_of_error
        (show opResult s (.updateLoc u now la lo acc sp hdg) = .error e from hr)]
      exact Or.inl rfl
    · rw [applyOp_of_ok
        (show opResult s (.updateLoc u now la lo acc sp hdg) = .ok s' from hr)]
      obtain ⟨-, -, -, -, -, -, rfl⟩ := update_deliverer_location_ok hr
      exact Or.inl rfl

/-- Over any run of non-deletion operations, an order's status follows a path
through the transition graph. -/
theorem statusPath_runOps (s : SysState) (ops : List Op)
    (hops : ∀ op ∈ ops, op.isDelete = false) (oid : Nat) :
    Relation.ReflTransGen statusStep (statusOf s oid)
      (statusOf (runOps s ops) oid) := by
  induction ops generalizing s with
  | nil => exact Relation.ReflTransGen.refl
  | cons op rest ih =>
    have hstep := statusStep_applyOp s op (hops op (by simp)) oid
    have htail := ih (applyOp s op) (fun o ho => hops o (by simp [ho]))
    exact Relation.ReflTransGen.head hstep htail

end TraceLemmas

/-- C6: Delivery-fee contract.  For every distance and configuration, the
handler fails with the distance-exceeded error exactly when the distance is
beyond `maximum_delivery_distance` (and then returns no fee); on success the
final fee is `max (distance * rate) minimum_delivery_fee`, the fee never
undercuts the minimum, and the per-km rate is the city override's
`delivery_fee_per_km` when the requested city exists and is active, else the
platform default. -/
theorem C6_delivery_fee_contract (cities : List AllowedCity)
    (settings : PlatformSettings) (distance : ℚ) (city_id : Option Nat) :
    (calculate_delivery_fee cities settings distance city_id =
        .error .distanceExceeded ↔
      settings.maximum_delivery_distance < distance) ∧
    (∀ res, calculate_delivery_fee cities settings distance city_id =
        .ok res →
      res.final_delivery_fee =
        max (distance * res.fee_per_km) settings.minimum_delivery_fee ∧
      settings.minimum_delivery_fee ≤ res.final_delivery_fee ∧
      res.fee_per_km =
        (match city_id with
        | some cid =>
          match cities.find? (fun c => c.id == cid) with
          | some city =>
            if city.is_active then city.delivery_fee_per_km
            else settings.default_delivery_fee_per_km
          | none => settings.default_delivery_fee_per_km
        | none => settings.default_delivery_fee_per_km)) ∧
    (distance ≤ settings.maximum_delivery_distance →
      ∃ res, calculate_delivery_fee cities settings distance city_id =
        .ok res) := by
  unfold calculate_delivery_fee
  by_cases h : settings.maximum_delivery_distance < distance
  · rw [if_pos h]
    refine ⟨⟨fun _ => h, fun _ => rfl⟩, ?_, ?_⟩
    · intro res hres
      exact absurd hres (by simp)
    · intro hle
      exact absurd h (not_lt.mpr hle)
  · rw [if_neg h]
    refine ⟨⟨fun hres => absurd hres (by simp), fun hlt => absurd hlt h⟩, ?_, ?_⟩
    · intro res hres
      cases hres
      exact ⟨rfl, le_max_right _ _, rfl⟩
    · intro _
      exact ⟨_, rfl⟩

/-- C6 witness: with platform maximum 10 km, the 12 km request fails with the
distance error (the spec's scenario), and a 4 km request succeeds. -/
theorem C6_delivery_fee_contract_witness :
    calculate_delivery_fee [] ⟨2, 5, 10⟩ 12 none = .error .distanceExceeded ∧
    ∃ res, calculate_delivery_fee [] ⟨2, 5, 10⟩ 4 none = .ok res :=
  ⟨(C6_delivery_fee_contract [] ⟨2, 5, 10⟩ 12 none).1.mpr (by norm_num),
   (C6_delivery_fee_contract [] ⟨2, 5, 10⟩ 4 none).2.2 (by norm_num)⟩

/-- C1: Single assignment of jobs.  A claim (`accept_delivery`) commits only
when the order is "ready" and unassigned, and then binds exactly the caller;
a claim on an order whose `deliverer_id` is already set fails (with the
already-accepted 400 when the status still reads "ready") and the session is
left unchanged; same discipline for `accept_delivery_request` on "pending"
requests; and over any run of claim operations an assigned order or request
row never changes, so at most one deliverer is ever bound to a job by
claims. -/
theorem C1_single_assignment :
    (∀ s u oid s', accept_delivery s u oid = .ok s' →
      ∃ o, findOrder s oid = some o ∧ o.status = "ready" ∧
        o.deliverer_id = none ∧
        findOrder s' oid =
          some { o with deliverer_id := some u, status := "delivering" }) ∧
    (∀ s u oid (o : Order) d, findOrder s oid = some o →
      o.deliverer_id = some d →
      (∃ e, accept_delivery s u oid = .error e) ∧
      applyOp s (.accept u oid) = s ∧
      (o.status = "ready" → ∀ user, findUser s u = some user →
        user.user_type = "deliverer" →
        accept_delivery s u oid = .error .alreadyAccepted)) ∧
    (∀ s u rid s', accept_delivery_request s u rid = .ok s' →
      ∃ r, findRequest s rid = some r ∧ r.status = "pending" ∧
        r.deliverer_id = none ∧
        findRequest s' rid =
          some { r with deliverer_id := some u, status := "accepted" }) ∧
    (∀ s u rid (r : DeliveryRequest) d, findRequest s rid = some r →
      r.deliverer_id = some d →
      (∃ e, accept_delivery_request s u rid = .error e) ∧
      applyOp s (.acceptRequest u rid) = s) ∧
    (∀ s ops, (∀ op ∈ ops, op.isClaim = true) →
      ∀ oid (o : Order), findOrder s oid = some o → o.deliverer_id.isSome →
        findOrder (runOps s ops) oid = some o) ∧
    (∀ s ops, (∀ op ∈ ops, op.isClaim = true) →
      ∀ rid (r : DeliveryRequest), findRequest s rid = some r →
        r.deliverer_id.isSome →
        findRequest (runOps s ops) rid = some r) := by
  have claimOrders : ∀ s op, op.isClaim = true →
      ∀ oid (o : Order), findOrder s oid = some o → o.deliverer_id.isSome →
        findOrder (applyOp s op) oid = some o := by
    intro s op hcl oid o hfind hassigned
    cases op with
    | accept u tid =>
      rcases hr : accept_delivery s u tid with e | s'
      · rw [applyOp_of_error (show opResult s (.accept u tid) = .error e from hr)]
        exact hfind
      · rw [applyOp_of_ok (show opResult s (.accept u tid) = .ok s' from hr)]
        obtain ⟨user, order, -, -, hord, -, hnone, rfl⟩ := accept_delivery_ok hr
        by_cases hoo : oid = tid
        · subst hoo
          rw [hfind] at hord
          cases hord
          rw [hnone] at hassigned
          cases hassigned
        · rw [findOrder_set (by intro o'; rfl) oid, hfind]
          have hoid : o.id = oid := by
            simpa using List.find?_some (p := fun o' : Order => o'.id == oid)
              hfind
          simp [hoid, hoo]
    | acceptRequest u rid =>
      rcases hr : accept_delivery_request s u rid with e | s'
      · rw [applyOp_of_error
          (show opResult s (.acceptRequest u rid) = .error e from hr)]
        exact hfind
      · rw [applyOp_of_ok
          (show opResult s (.acceptRequest u rid) = .ok s' from hr)]
        obtain ⟨-, -, -, -, -, -, -, -, -, -, rfl⟩ :=
          accept_delivery_request_ok hr
        exact hfind
    | updateStatus u o' ns => simp [Op.isClaim] at hcl
    | updateRequestStatus u r ns => simp [Op.isClaim] at hcl
    | adminStatus c o' ns reason => simp [Op.isClaim] at hcl
    | adminCancel c o' reason => simp [Op.isClaim] at hcl
    | deleteDeliverer c d => simp [Op.isClaim] at hcl
    | updateLoc u now la lo acc sp hdg => simp [Op.isClaim] at hcl
  have claimRequests : ∀ s op, op.isClaim = true →
      ∀ rid (r : DeliveryRequest), findRequest s rid = some r →
        r.deliverer_id.isSome → findRequest (applyOp s op) rid = some r := by
    intro s op hcl rid r hfind hassigned
    cases op with
    | accept u tid =>
      rcases hr : accept_delivery s u tid with e | s'
      · rw [applyOp_of_error (show opResult s (.accept u tid) = .error e from hr)]
        exact hfind
      · rw [applyOp_of_ok (show opResult s (.accept u tid) = .ok s' from hr)]
        obtain ⟨-, -, -, -, -, -, -, rfl⟩ := accept_delivery_ok hr
        exact hfind
    | acceptRequest u tid =>
      rcases hr : accept_delivery_request s u tid with e | s'
      · rw [applyOp_of_error
          (show opResult s (.acceptRequest u tid) = .error e from hr)]
        exact hfind
      · rw [applyOp_of_ok
          (show opResult s (.acceptRequest u tid) = .ok s' from hr)]
        obtain ⟨user, deliverer, req, -, -, -, -, hreq, -, hnone, rfl⟩ :=
          accept_delivery_request_ok hr
        by_cases hoo : rid = tid
        · subst hoo
          rw [hfind] at hreq
          cases hreq
          rw [hnone] at hassigned
          cases hassigned
        · rw [findRequest_set (by intro r'; rfl) rid, hfind]
          have hrid : r.id = rid := by
            simpa using List.find?_some
              (p := fun r' : DeliveryRequest => r'.id == rid) hfind
          simp [hrid, hoo]
    | updateStatus u o' ns => simp [Op.isClaim] at hcl
    | updateRequestStatus u r' ns => simp [Op.isClaim] at hcl
    | adminStatus c o' ns reason => simp [Op.isClaim] at hcl
    | adminCancel c o' reason => simp [Op.isClaim] at hcl
    | deleteDeliverer c d => simp [Op.isClaim] at hcl
    | updateLoc u now la lo acc sp hdg => simp [Op.isClaim] at hcl
  refine ⟨?_, ?_, ?_, ?_, ?_, ?_⟩
  · intro s u oid s' h
    obtain ⟨user, order, -, -, hord, hst, hnone, rfl⟩ := accept_delivery_ok h
    refine ⟨order, hord, hst, hnone, ?_⟩
    rw [findOrder_set (by intro o'; rfl) oid, hord]
    have hoid : order.id = oid := by
      simpa using List.find?_some (p := fun o' : Order => o'.id == oid) hord
    simp [hoid]
  · intro s u oid o d hord hda
    obtain ⟨e, he⟩ := accept_delivery_error_of_assigned hord hda
    refine ⟨⟨e, he⟩,
      applyOp_of_error (show opResult s (.accept u oid) = .error e from he),
      ?_⟩
    intro hst user hu hty
    exact accept_delivery_already_accepted hord hda hst hu hty
  · intro s u rid s' h
    obtain ⟨user, deliverer, req, -, -, -, -, hreq, hst, hnone, rfl⟩ :=
      accept_delivery_request_ok h
    refine ⟨req, hreq, hst, hnone, ?_⟩
    rw [findRequest_set (by intro r'; rfl) rid, hreq]
    have hrid : req.id = rid := by
      simpa using List.find?_some
        (p := fun r' : DeliveryRequest => r'.id == rid) hreq
    simp [hrid]
  · intro s u rid r d hreq hda
    obtain ⟨e, he⟩ := accept_request_error_of_assigned hreq hda
    exact ⟨⟨e, he⟩,
      applyOp_of_error (show opResult s (.acceptRequest u rid) = .error e from he)⟩
  · intro s ops hops oid o hfind hassigned
    induction ops generalizing s with
    | nil => exact hfind
    | cons op rest ih =>
      have h1 := claimOrders s op (hops op (by simp)) oid o hfind hassigned
      exact ih (applyOp s op) (fun o' ho' => hops o' (by simp [ho'])) h1
  · intro s ops hops rid r hfind hassigned
    induction ops generalizing s with
    | nil => exact hfind
    | cons op rest ih =>
      have h1 := claimRequests s op (hops op (by simp)) rid r hfind hassigned
      exact ih (applyOp s op) (fun o' ho' => hops o' (by simp [ho'])) h1

/-- A state with a ready order already claimed by deliverer 1 and an accepted
request already claimed by deliverer 1, used to instantiate C1. -/
def w1State : SysState :=
  { users := [⟨1, "deliverer"⟩, ⟨2, "deliverer"⟩], stores := [],
    deliverers := [], orders := [⟨10, 3, 4, some 1, "ready"⟩],
    delivery_requests := [⟨20, 3, some 1, "accepted"⟩], locations := [],
    trackings := [] }

/-- C1 witness: deliverer 2's claim on order 10 (already bound to deliverer 1
and still "ready") is rejected with the already-accepted error, and a run of
claim attempts by deliverer 2 leaves both assigned rows untouched. -/
theorem C1_single_assignment_witness :
    accept_delivery w1State 2 10 = .error .alreadyAccepted ∧
    findOrder (runOps w1State [.accept 2 10, .acceptRequest 2 20]) 10 =
      some ⟨10, 3, 4, some 1, "ready"⟩ ∧
    findRequest (runOps w1State [.accept 2 10, .acceptRequest 2 20]) 20 =
      some ⟨20, 3, some 1, "accepted"⟩ := by
  refine ⟨?_, ?_, ?_⟩
  · exact (C1_single_assignment.2.1 w1State 2 10 ⟨10, 3, 4, some 1, "ready"⟩ 1
      (by decide) rfl).2.2 rfl ⟨2, "deliverer"⟩ (by decide) rfl
  · exact C1_single_assignment.2.2.2.2.1 w1State [.accept 2 10, .acceptRequest 2 20]
      (by
        intro op hop
        rcases List.mem_cons.mp hop with rfl | hop
        · rfl
        · rcases List.mem_cons.mp hop with rfl | hop
          · rfl
          · cases hop)
      10 ⟨10, 3, 4, some 1, "ready"⟩ (by decide) rfl
  · exact C1_single_assignment.2.2.2.2.2 w1State [.accept 2 10, .acceptRequest 2 20]
      (by
        intro op hop
        rcases List.mem_cons.mp hop with rfl | hop
        · rfl
        · rcases List.mem_cons.mp hop with rfl | hop
          · rfl
          · cases hop)
      20 ⟨20, 3, some 1, "accepted"⟩ (by decide) rfl

/-- A state with an offline, unapproved deliverer (user 1), a ready
unassigned order 10, and a pending unassigned request 20. -/
def c3State : SysState :=
  { users := [⟨1, "deliverer"⟩], stores := [],
    deliverers := [⟨5, 1, false, false, 0⟩],
    orders := [⟨10, 2, 3, none, "ready"⟩],
    delivery_requests := [⟨20, 2, none, "pending"⟩], locations := [],
    trackings := [] }

/-- C3 counterexample: deliverer 1 is offline AND unapproved, yet its claim
on ready order 10 succeeds and binds it — the claim's required `NotEligible`
rejection does not exist in `accept_delivery`. -/
theorem C3_counterexample :
    findDelivererByUser c3State 1 = some ⟨5, 1, false, false, 0⟩ ∧
    accept_delivery c3State 1 10 =
      .ok { c3State with orders := [⟨10, 2, 3, some 1, "delivering"⟩] } := by
  exact ⟨rfl, rfl⟩

/-- C3 (amended): `accept_delivery` performs no eligibility check at all —
any deliverer-type caller claims a ready unassigned order regardless of
`is_online`/`is_approved`; `accept_delivery_request` rejects a caller whose
profile is missing or offline with the must-be-online 403, but does not check
`is_approved`, so an online unapproved deliverer claims successfully. -/
theorem C3_claim_eligibility :
    (∀ s u oid (user : User) (o : Order), findUser s u = some user →
      user.user_type = "deliverer" → findOrder s oid = some o →
      o.status = "ready" → o.deliverer_id = none →
      ∃ s', accept_delivery s u oid = .ok s') ∧
    (∀ s u rid (user : User), findUser s u = some user →
      user.user_type = "deliverer" →
      (∀ d, findDelivererByUser s u = some d → d.is_online = false) →
      accept_delivery_request s u rid = .error .mustBeOnline) ∧
    (∀ s u rid (user : User) (d : Deliverer) (r : DeliveryRequest),
      findUser s u = some user → user.user_type = "deliverer" →
      findDelivererByUser s u = some d → d.is_online = true →
      findRequest s rid = some r → r.status = "pending" →
      r.deliverer_id = none →
      ∃ s', accept_delivery_request s u rid = .ok s') := by
  refine ⟨?_, ?_, ?_⟩
  · intro s u oid user o hu hty hord hst hnone
    unfold accept_delivery
    rw [hu]
    dsimp only
    rw [if_neg (by simp [hty]), hord]
    dsimp only
    rw [if_neg (by simp [hst]), if_neg (by simp [hnone])]
    exact ⟨_, rfl⟩
  · intro s u rid user hu hty hoff
    unfold accept_delivery_request
    rw [hu]
    dsimp only
    rw [if_neg (by simp [hty])]
    rcases hd : findDelivererByUser s u with _ | d
    · rfl
    · dsimp only
      rw [if_pos (by simp [hoff d hd])]
  · intro s u rid user d r hu hty hd hon hreq hst hnone
    unfold accept_delivery_request
    rw [hu]
    dsimp only
    rw [if_neg (by simp [hty]), hd]
    dsimp only
    rw [if_neg (by simp [hon]), hreq]
    dsimp only
    rw [if_neg (by simp [hst]), if_neg (by simp [hnone])]
    exact ⟨_, rfl⟩

/-- A state with an online but unapproved deliverer and a pending request. -/
def c3OnState : SysState :=
  { users := [⟨1, "deliverer"⟩], stores := [],
    deliverers := [⟨5, 1, true, false, 0⟩], orders := [],
    delivery_requests := [⟨20, 2, none, "pending"⟩], locations := [],
    trackings := [] }

/-- C3 witness: the offline deliverer of `c3State` still claims order 10;
its request claim is rejected must-be-online; and the online-but-unapproved
deliverer of `c3OnState` claims request 20 successfully. -/
theorem C3_claim_eligibility_witness :
    (∃ s', accept_delivery c3State 1 10 = .ok s') ∧
    accept_delivery_request c3State 1 20 = .error .mustBeOnline ∧
    ∃ s', accept_delivery_request c3OnState 1 20 = .ok s' := by
  refine ⟨?_, ?_, ?_⟩
  · exact C3_claim_eligibility.1 c3State 1 10 ⟨1, "deliverer"⟩
      ⟨10, 2, 3, none, "ready"⟩ rfl rfl rfl rfl rfl
  · exact C3_claim_eligibility.2.1 c3State 1 20 ⟨1, "deliverer"⟩ rfl rfl
      (by intro d hd; cases hd; rfl)
  · exact C3_claim_eligibility.2.2 c3OnState 1 20 ⟨1, "deliverer"⟩
      ⟨5, 1, true, false, 0⟩ ⟨20, 2, none, "pending"⟩ rfl rfl rfl rfl rfl rfl
      rfl

/-- A state with order 10 in "delivering", assigned to deliverer 1 whose
counter reads 0. -/
def c5State : SysState :=
  { users := [⟨1, "deliverer"⟩], stores := [],
    deliverers := [⟨5, 1, true, true, 0⟩],
    orders := [⟨10, 2, 3, some 1, "delivering"⟩], delivery_requests := [],
    locations := [], trackings := [] }

/-- The session committed by the C5 counterexample transition. -/
def c5After : SysState :=
  { c5State with orders := [⟨10, 2, 3, some 1, "delivered"⟩] }

/-- C5 counterexample: the assigned deliverer moves order 10 to "delivered";
the transition commits but `total_deliveries` stays 0 — the claimed
increment does not exist on the Order path. -/
theorem C5_counterexample :
    update_order_status c5State 1 10 "delivered" = .ok c5After ∧
    (findOrder c5After 10).map Order.status = some "delivered" ∧
    (findDelivererByUser c5State 1).map Deliverer.total_deliveries = some 0 ∧
    (findDelivererByUser c5After 1).map Deliverer.total_deliveries = some 0 := by
  exact ⟨rfl, rfl, rfl, rfl⟩

/-- C5 (amended): no operation ever increments `total_deliveries`.  Order
status updates never change the deliverers table; the source's only
increment site — `update_delivery_request_status`, deliverers.py line 362 —
is unreachable, because that handler calls the nonexistent
`SecurityValidator.sanitize_int` and so answers 500 to every deliverer-type
call (and 403 to everyone else) without committing anything; and across any
run of the embedded operations every deliverer row of the final session
already existed in the initial one (rows are only ever deleted, never
rewritten), so no counter ever changes. -/
theorem C5_delivered_counter :
    (∀ s u oid ns s', update_order_status s u oid ns = .ok s' →
      s'.deliverers = s.deliverers) ∧
    (∀ s u rid ns (user : User), findUser s u = some user →
      user.user_type = "deliverer" →
      update_delivery_request_status s u rid ns = .error .serverError) ∧
    (∀ s u rid ns,
      (∃ e, update_delivery_request_status s u rid ns = .error e) ∧
      applyOp s (.updateRequestStatus u rid ns) = s) ∧
    (∀ s ops (d : Deliverer), d ∈ (runOps s ops).deliverers →
      d ∈ s.deliverers) := by
  have hstep : ∀ (s : SysState) (op : Op) (d : Deliverer),
      d ∈ (applyOp s op).deliverers → d ∈ s.deliverers := by
    intro s op d hmem
    cases op with
    | updateStatus u o ns =>
      rcases hr : update_order_status s u o ns with e | s'
      · rwa [applyOp_of_error
          (show opResult s (.updateStatus u o ns) = .error e from hr)] at hmem
      · rw [applyOp_of_ok
          (show opResult s (.updateStatus u o ns) = .ok s' from hr)] at hmem
        obtain ⟨-, -, -, -, -, -, -, rfl⟩ := update_order_status_ok hr
        exact hmem
    | accept u o =>
      rcases hr : accept_delivery s u o with e | s'
      · rwa [applyOp_of_error
          (show opResult s (.accept u o) = .error e from hr)] at hmem
      · rw [applyOp_of_ok
          (show opResult s (.accept u o) = .ok s' from hr)] at hmem
        obtain ⟨-, -, -, -, -, -, -, rfl⟩ := accept_delivery_ok hr
        exact hmem
    | acceptRequest u r =>
      rcases hr : accept_delivery_request s u r with e | s'
      · rwa [applyOp_of_error
          (show opResult s (.acceptRequest u r) = .error e from hr)] at hmem
      · rw [applyOp_of_ok
          (show opResult s (.acceptRequest u r) = .ok s' from hr)] at hmem
        obtain ⟨-, -, -, -, -, -, -, -, -, -, rfl⟩ :=
          accept_delivery_request_ok hr
        exact hmem
    | updateRequestStatus u r ns =>
      obtain ⟨e, he⟩ := update_delivery_request_status_error s u r ns
      rwa [applyOp_of_error
        (show opResult s (.updateRequestStatus u r ns) = .error e from he)]
        at hmem
    | adminStatus c o ns reason =>
      rwa [applyOp_of_error
        (show opResult s (.adminStatus c o ns reason) = .error .serverError
          from rfl)] at hmem
    | adminCancel c o reason =>
      rwa [applyOp_of_error
        (show opResult s (.adminCancel c o reason) = .error .serverError
          from rfl)] at hmem
    | deleteDeliverer c did =>
      rcases hr : delete_deliverer s c did with e | s'
      · rwa [applyOp_of_error
          (show opResult s (.deleteDeliverer c did) = .error e from hr)] at hmem
      · rw [applyOp_of_ok
          (show opResult s (.deleteDeliverer c did) = .ok s' from hr)] at hmem
        obtain ⟨ca, de, h1, h2, h3, hs2⟩ := delete_deliverer_ok hr
        rw [hs2] at hmem
        exact List.mem_of_mem_filter hmem
    | updateLoc u now la lo acc sp hdg =>
      rcases hr : update_deliverer_location s u now la lo acc sp hdg with e | s'
      · rwa [applyOp_of_error
          (show opResult s (.updateLoc u now la lo acc sp hdg) = .error e
            from hr)] at hmem
      · rw [applyOp_of_ok
          (show opResult s (.updateLoc u now la lo acc sp hdg) = .ok s'
            from hr)] at hmem
        obtain ⟨-, -, -, -, -, -, rfl⟩ := update_deliverer_location_ok hr
        exact hmem
  refine ⟨?_, ?_, ?_, ?_⟩
  · intro s u oid ns s' h
    obtain ⟨-, -, -, -, -, -, -, rfl⟩ := update_order_status_ok h
    rfl
  · intro s u rid ns user hu hty
    exact update_delivery_request_status_eq_serverError hu hty rid ns
  · intro s u rid ns
    obtain ⟨e, he⟩ := update_delivery_request_status_error s u rid ns
    exact ⟨⟨e, he⟩,
      applyOp_of_error
        (show opResult s (.updateRequestStatus u rid ns) = .error e from he)⟩
  · intro s ops d hmem
    induction ops generalizing s with
    | nil => exact hmem
    | cons op rest ih => exact hstep s op d (ih (applyOp s op) hmem)

/-- A state with deliverer 1 (counter 3) holding request 20 in "picked_up". -/
def c5ReqState : SysState :=
  { users := [⟨1, "deliverer"⟩], stores := [],
    deliverers := [⟨5, 1, true, true, 3⟩], orders := [],
    delivery_requests := [⟨20, 2, some 1, "picked_up"⟩], locations := [],
    trackings := [] }

/-- C5 witness: the order-path transition of the counterexample leaves the
deliverers table untouched; the assigned deliverer's attempt to mark
request 20 delivered answers the 500 and changes nothing, so its counter row
(still 3) survives the run untouched. -/
theorem C5_delivered_counter_witness :
    c5After.deliverers = c5State.deliverers ∧
    update_delivery_request_status c5ReqState 1 20 "delivered" =
      .error .serverError ∧
    applyOp c5ReqState (.updateRequestStatus 1 20 "delivered") = c5ReqState ∧
    (⟨5, 1, true, true, 3⟩ : Deliverer) ∈ c5ReqState.deliverers := by
  refine ⟨?_, ?_, ?_, ?_⟩
  · exact C5_delivered_counter.1 c5State 1 10 "delivered" c5After rfl
  · exact C5_delivered_counter.2.1 c5ReqState 1 20 "delivered"
      ⟨1, "deliverer"⟩ rfl rfl
  · exact (C5_delivered_counter.2.2.1 c5ReqState 1 20 "delivered").2
  · exact C5_delivered_counter.2.2.2 c5ReqState
      [.updateRequestStatus 1 20 "delivered"] ⟨5, 1, true, true, 3⟩
      (by decide)

/-- A state with an admin (user 1) and a ready unassigned order 10. -/
def c2State : SysState :=
  { users := [⟨1, "admin"⟩], stores := [], deliverers := [],
    orders := [⟨10, 2, 3, none, "ready"⟩], delivery_requests := [],
    locations := [], trackings := [] }

/-- C2 counterexample: admin 1 requests the in-table transition
ready → delivering through the admin status route, which the claim says must
succeed; the handler's signature omits the routed `order_id`, so the call
errors and the order is untouched. -/
theorem C2_counterexample :
    "delivering" ∈ valid_transitions "admin" "ready" ∧
    findUser c2State 1 = some ⟨1, "admin"⟩ ∧
    statusOf c2State 10 = some "ready" ∧
    update_order_status_admin c2State 1 10 "delivering" "fix" =
      .error .serverError := by
  exact ⟨by decide, rfl, rfl, rfl⟩

/-- C2 (amended): for the shared status endpoint, a caller authorized for the
order succeeds exactly when the requested status is in the
`(role, current status)` table, an out-of-table request gets the
invalid-transition 400 and the session is unchanged; the admin-only status
route never performs any transition (its handler cannot receive the routed
order id) and leaves every session unchanged. -/
theorem C2_transition_table :
    (∀ s u oid ns (user : User) (o : Order), findOrder s oid = some o →
      ns ≠ "" → findUser s u = some user →
      has_permission s user o = true →
      ((∃ s', update_order_status s u oid ns = .ok s') ↔
        ns ∈ valid_transitions user.user_type o.status)) ∧
    (∀ s u oid ns (user : User) (o : Order), findOrder s oid = some o →
      ns ≠ "" → findUser s u = some user →
      has_permission s user o = true →
      ns ∉ valid_transitions user.user_type o.status →
      update_order_status s u oid ns = .error .invalidTransition ∧
      applyOp s (.updateStatus u oid ns) = s) ∧
    (∀ s c oid ns reason,
      update_order_status_admin s c oid ns reason = .error .serverError ∧
      applyOp s (.adminStatus c oid ns reason) = s) := by
  refine ⟨?_, ?_, ?_⟩
  · intro s u oid ns user o hord hns hu hperm
    constructor
    · rintro ⟨s', hs'⟩
      obtain ⟨o2, user2, hord2, -, hu2, -, hmem2, -⟩ :=
        update_order_status_ok hs'
      rw [hord] at hord2
      cases hord2
      rw [hu] at hu2
      cases hu2
      exact hmem2
    · intro hmem
      exact ⟨_, update_order_status_eq_ok hord hns hu hperm hmem⟩
  · intro s u oid ns user o hord hns hu hperm hmem
    have he := update_order_status_eq_invalid hord hns hu hperm hmem
    exact ⟨he,
      applyOp_of_error
        (show opResult s (.updateStatus u oid ns) = .error .invalidTransition
          from he)⟩
  · intro s c oid ns reason
    exact ⟨rfl,
      applyOp_of_error
        (show opResult s (.adminStatus c oid ns reason) = .error .serverError
          from rfl)⟩

/-- A state with a store owner (user 1, store 3) and its order 10 in
"preparing". -/
def c2wState : SysState :=
  { users := [⟨1, "store"⟩], stores := [⟨3, 1⟩], deliverers := [],
    orders := [⟨10, 2, 3, none, "preparing"⟩], delivery_requests := [],
    locations := [], trackings := [] }

/-- C2 witness: the owning store's request preparing → delivering is rejected
with the invalid-transition error and changes nothing, while its in-table
preparing → ready succeeds. -/
theorem C2_transition_table_witness :
    (update_order_status c2wState 1 10 "delivering" =
        .error .invalidTransition ∧
      applyOp c2wState (.updateStatus 1 10 "delivering") = c2wState) ∧
    (∃ s', update_order_status c2wState 1 10 "ready" = .ok s') := by
  refine ⟨?_, ?_⟩
  · exact C2_transition_table.2.1 c2wState 1 10 "delivering" ⟨1, "store"⟩
      ⟨10, 2, 3, none, "preparing"⟩ rfl (by decide) rfl (by decide) (by decide)
  · exact (C2_transition_table.1 c2wState 1 10 "ready" ⟨1, "store"⟩
      ⟨10, 2, 3, none, "preparing"⟩ rfl (by decide) rfl (by decide)).mpr
      (by decide)

/-- A state with an admin (user 1) and deliverer 2 (profile 5) carrying
order 10 in "delivering". -/
def c4State : SysState :=
  { users := [⟨1, "admin"⟩, ⟨2, "deliverer"⟩], stores := [],
    deliverers := [⟨5, 2, true, true, 0⟩],
    orders := [⟨10, 3, 4, some 2, "delivering"⟩], delivery_requests := [],
    locations := [], trackings := [] }

/-- The session committed by deleting deliverer 5 in `c4State`. -/
def c4After : SysState :=
  { c4State with orders := [⟨10, 3, 4, none, "pending"⟩], deliverers := [],
                 users := [⟨1, "admin"⟩] }

/-- C4 counterexample: deleting deliverer 5 resets its in-flight order 10
from "delivering" back to "pending" — a backwards move that is not an edge of
the §4.1 graph, contradicting the claimed path property for account
deletions. -/
theorem C4_counterexample :
    statusOf c4State 10 = some "delivering" ∧
    delete_deliverer c4State 1 5 = .ok c4After ∧
    statusOf c4After 10 = some "pending" ∧
    ¬ orderEdge "delivering" "pending" := by
  exact ⟨rfl, rfl, rfl, by unfold orderEdge; decide⟩

/-- C4 (amended): under every operation except admin deliverer-deletion, an
order's status either stays put or follows one edge of the §4.1 graph, so
over any such run the observed statuses form a path through the graph; the
graph has no accepted → ready edge (preparing is never skipped) and no edge
out of "delivered" or "cancelled" (terminal states are never exited). -/
theorem C4_status_path :
    (∀ s op, op.isDelete = false → ∀ oid,
      statusStep (statusOf s oid) (statusOf (applyOp s op) oid)) ∧
    (∀ s ops, (∀ op ∈ ops, op.isDelete = false) → ∀ oid,
      Relation.ReflTransGen statusStep (statusOf s oid)
        (statusOf (runOps s ops) oid)) ∧
    ¬ orderEdge "accepted" "ready" ∧
    (∀ t, ¬ orderEdge "delivered" t) ∧
    (∀ t, ¬ orderEdge "cancelled" t) := by
  refine ⟨statusStep_applyOp, statusPath_runOps, by unfold orderEdge; decide,
    ?_, ?_⟩
  · intro t
    simp [orderEdge, valid_transitions]
  · intro t
    simp [orderEdge, valid_transitions]

/-- A state with a store owner (user 1, store 3) and its pending order 10. -/
def c4wState : SysState :=
  { users := [⟨1, "store"⟩], stores := [⟨3, 1⟩], deliverers := [],
    orders := [⟨10, 2, 3, none, "pending"⟩], delivery_requests := [],
    locations := [], trackings := [] }

/-- C4 witness: a run of two store-side status updates keeps the order on a
path through the graph. -/
theorem C4_status_path_witness :
    Relation.ReflTransGen statusStep (statusOf c4wState 10)
      (statusOf (runOps c4wState
        [Op.updateStatus 1 10 "accepted", Op.updateStatus 1 10 "preparing"])
        10) :=
  C4_status_path.2.1 c4wState
    [Op.updateStatus 1 10 "accepted", Op.updateStatus 1 10 "preparing"]
    (by
      intro op hop
      rcases List.mem_cons.mp hop with rfl | hop
      · rfl
      · rcases List.mem_cons.mp hop with rfl | hop
        · rfl
        · cases hop)
    10

/-- After the deactivation pass of `update_deliverer_location`, the caller
has no active rows left. -/
theorem countP_deactivated_self (ls : List DelivererLocation) (u : Nat) :
    (ls.map (fun l => if l.deliverer_id == u && l.is_active then
        { l with is_active := false } else l)).countP
      (fun l => l.deliverer_id == u && l.is_active) = 0 := by
  rw [List.countP_map]
  apply List.countP_eq_zero.mpr
  intro a _
  by_cases hm : a.deliverer_id == u && a.is_active
  · simp only [Function.comp, hm, if_pos]
    simp
  · simp only [Function.comp, if_neg hm]
    simpa using hm

/-- The deactivation pass does not change any other deliverer's active
count. -/
theorem countP_deactivated_other (ls : List DelivererLocation) (u d : Nat)
    (hdu : d ≠ u) :
    (ls.map (fun l => if l.deliverer_id == u && l.is_active then
        { l with is_active := false } else l)).countP
      (fun l => l.deliverer_id == d && l.is_active) =
    ls.countP (fun l => l.deliverer_id == d && l.is_active) := by
  rw [List.countP_map]
  apply List.countP_congr
  intro a _
  by_cases hm : a.deliverer_id == u && a.is_active
  · have hau : a.deliverer_id = u := by
      have := hm
      simp at this
      exact this.1
    simp only [Function.comp, hm, if_pos]
    simp [hau, hdu, Ne.symm hdu]
  · simp only [Function.comp, if_neg hm]

/-- C7: Active-location invariant.  Every operation preserves "at most one
active location row per deliverer" (only `update_deliverer_location` touches
the table: it first deactivates the caller's active rows, then appends one
new active row), so the bound holds after any run; a successful update
commits exactly the deactivate-then-append shape — one row longer, history
intact, and exactly one active row for the caller. -/
theorem C7_active_location_invariant :
    (∀ s op d, activeCount s d ≤ 1 → activeCount (applyOp s op) d ≤ 1) ∧
    (∀ s ops d, activeCount s d ≤ 1 → activeCount (runOps s ops) d ≤ 1) ∧
    (∀ s u now la lo acc sp hdg s',
      update_deliverer_location s u now la lo acc sp hdg = .ok s' →
      s'.locations =
        s.locations.map (fun l =>
          if l.deliverer_id == u && l.is_active then
            { l with is_active := false }
          else l) ++
        [⟨u, la, lo, acc, sp, hdg, true⟩] ∧
      s'.locations.length = s.locations.length + 1 ∧
      activeCount s' u = 1) := by
  have hshape : ∀ (s : SysState) (u : Nat) (now : ℝ) (la lo : ℚ)
      (acc sp hdg : Option ℚ) (s' : SysState),
      update_deliverer_location s u now la lo acc sp hdg = .ok s' →
      s'.locations =
        s.locations.map (fun l =>
          if l.deliverer_id == u && l.is_active then
            { l with is_active := false }
          else l) ++
        [⟨u, la, lo, acc, sp, hdg, true⟩] := by
    intro s u now la lo acc sp hdg s' h
    obtain ⟨-, -, -, -, -, -, rfl⟩ := update_deliverer_location_ok h
    rfl
  have hcount : ∀ (s : SysState) (u d : Nat) (la lo : ℚ)
      (acc sp hdg : Option ℚ),
      (s.locations.map (fun l =>
          if l.deliverer_id == u && l.is_active then
            { l with is_active := false }
          else l) ++
        [(⟨u, la, lo, acc, sp, hdg, true⟩ : DelivererLocation)]).countP
          (fun l => l.deliverer_id == d && l.is_active) =
        (if d = u then 1
        else s.locations.countP
          (fun l => l.deliverer_id == d && l.is_active)) := by
    intro s u d la lo acc sp hdg
    rw [List.countP_append]
    by_cases hdu : d = u
    · subst hdu
      rw [countP_deactivated_self]
      simp [List.countP, List.countP.go]
    · rw [countP_deactivated_other s.locations u d hdu]
      have : ((⟨u, la, lo, acc, sp, hdg, true⟩ :
          DelivererLocation).deliverer_id == d &&
          (⟨u, la, lo, acc, sp, hdg, true⟩ :
          DelivererLocation).is_active) = false := by
        simp [Ne.symm hdu]
      rw [if_neg hdu]
      simp [List.countP, List.countP.go, this]
  have hstep : ∀ s op d, activeCount s d ≤ 1 →
      activeCount (applyOp s op) d ≤ 1 := by
    intro s op d h
    cases op with
    | updateStatus u o ns =>
      rcases hr : update_order_status s u o ns with e | s'
      · rw [applyOp_of_error (show opResult s (.updateStatus u o ns) = .error e from hr)]
        exact h
      · rw [applyOp_of_ok (show opResult s (.updateStatus u o ns) = .ok s' from hr)]
        obtain ⟨-, -, -, -, -, -, -, rfl⟩ := update_order_status_ok hr
        exact h
    | accept u o =>
      rcases hr : accept_delivery s u o with e | s'
      · rw [applyOp_of_error (show opResult s (.accept u o) = .error e from hr)]
        exact h
      · rw [applyOp_of_ok (show opResult s (.accept u o) = .ok s' from hr)]
        obtain ⟨-, -, -, -, -, -, -, rfl⟩ := accept_delivery_ok hr
        exact h
    | acceptRequest u r =>
      rcases hr : accept_delivery_request s u r with e | s'
      · rw [applyOp_of_error (show opResult s (.acceptRequest u r) = .error e from hr)]
        exact h
      · rw [applyOp_of_ok (show opResult s (.acceptRequest u r) = .ok s' from hr)]
        obtain ⟨-, -, -, -, -, -, -, -, -, -, rfl⟩ :=
          accept_delivery_request_ok hr
        exact h
    | updateRequestStatus u r ns =>
      obtain ⟨e, he⟩ := update_delivery_request_status_error s u r ns
      rw [applyOp_of_error
        (show opResult s (.updateRequestStatus u r ns) = .error e from he)]
      exact h
    | adminStatus c o ns reason =>
      rw [applyOp_of_error
        (show opResult s (.adminStatus c o ns reason) = .error .serverError
          from rfl)]
      exact h
    | adminCancel c o reason =>
      rw [applyOp_of_error
        (show opResult s (.adminCancel c o reason) = .error .serverError
          from rfl)]
      exact h
    | deleteDeliverer c did =>
      rcases hr : delete_deliverer s c did with e | s'
      · rw [applyOp_of_error (show opResult s (.deleteDeliverer c did) = .error e from hr)]
        exact h
      · rw [applyOp_of_ok (show opResult s (.deleteDeliverer c did) = .ok s' from hr)]
        obtain ⟨-, -, -, -, -, rfl⟩ := delete_deliverer_ok hr
        exact h
    | updateLoc u now la lo acc sp hdg =>
      rcases hr : update_deliverer_location s u now la lo acc sp hdg with e | s'
      · rw [applyOp_of_error
          (show opResult s (.updateLoc u now la lo acc sp hdg) = .error e from hr)]
        exact h
      · rw [applyOp_of_ok
          (show opResult s (.updateLoc u now la lo acc sp hdg) = .ok s' from hr)]
        unfold activeCount
        rw [hshape s u now la lo acc sp hdg s' hr,
          hcount s u d la lo acc sp hdg]
        by_cases hdu : d = u
        · simp [hdu]
        · rw [if_neg hdu]
          exact h
  refine ⟨hstep, ?_, ?_⟩
  · intro s ops d h
    induction ops generalizing s with
    | nil => exact h
    | cons op rest ih => exact ih (applyOp s op) (hstep s op d h)
  · intro s u now la lo acc sp hdg s' h
    have hl := hshape s u now la lo acc sp hdg s' h
    refine ⟨hl, ?_, ?_⟩
    · rw [hl]
      simp
    · unfold activeCount
      rw [hl, hcount s u u la lo acc sp hdg]
      simp

/-- A state with an online approved deliverer (user 1) and no location
rows. -/
def c7State : SysState :=
  { users := [⟨1, "deliverer"⟩], stores := [],
    deliverers := [⟨5, 1, true, true, 0⟩], orders := [],
    delivery_requests := [], locations := [], trackings := [] }

/-- C7 witness: after two successive location updates by deliverer 1 the
active-row bound still holds. -/
theorem C7_active_location_invariant_witness :
    activeCount (runOps c7State
      [Op.updateLoc 1 0 1 2 none none none,
       Op.updateLoc 1 0 3 4 none none none]) 1 ≤ 1 :=
  C7_active_location_invariant.2.1 c7State
    [Op.updateLoc 1 0 1 2 none none none,
     Op.updateLoc 1 0 3 4 none none none] 1 (by decide)

/-- A state with an online but UNAPPROVED deliverer (user 1). -/
def c9State : SysState :=
  { users := [⟨1, "deliverer"⟩], stores := [],
    deliverers := [⟨5, 1, true, false, 0⟩], orders := [],
    delivery_requests := [], locations := [], trackings := [] }

/-- The session committed by the C9 counterexample update. -/
def c9After : SysState :=
  { c9State with locations := [⟨1, 1, 2, none, none, none, true⟩] }

/-- C9 counterexample: deliverer 1 is unapproved, yet its location update
succeeds and writes an active row — `update_deliverer_location` never reads
`is_approved`. -/
theorem C9_counterexample :
    (findDelivererByUser c9State 1).map Deliverer.is_approved = some false ∧
    update_deliverer_location c9State 1 0 1 2 none none none = .ok c9After ∧
    c9After.locations = [⟨1, 1, 2, none, none, none, true⟩] := by
  exact ⟨rfl, rfl, rfl⟩

/-- C9 (amended): a location update requires a deliverer-type caller whose
profile exists and is online; a non-deliverer caller, a missing profile or an
offline deliverer is rejected with a 403 and no row is written; an online
deliverer succeeds whether or not it is approved. -/
theorem C9_update_location_precondition :
    (∀ s u (now : ℝ) (la lo : ℚ) (acc sp hdg : Option ℚ) (user : User),
      findUser s u = some user → user.user_type ≠ "deliverer" →
      update_deliverer_location s u now la lo acc sp hdg =
        .error .accessDenied ∧
      applyOp s (.updateLoc u now la lo acc sp hdg) = s) ∧
    (∀ s u (now : ℝ) (la lo : ℚ) (acc sp hdg : Option ℚ),
      (∀ d, findDelivererByUser s u = some d → d.is_online = false) →
      (update_deliverer_location s u now la lo acc sp hdg =
          .error .accessDenied ∨
        update_deliverer_location s u now la lo acc sp hdg =
          .error .mustBeOnline) ∧
      applyOp s (.updateLoc u now la lo acc sp hdg) = s) ∧
    (∀ s u (now : ℝ) (la lo : ℚ) (acc sp hdg : Option ℚ) (user : User)
      (d : Deliverer), findUser s u = some user →
      user.user_type = "deliverer" → findDelivererByUser s u = some d →
      d.is_online = true →
      ∃ s', update_deliverer_location s u now la lo acc sp hdg = .ok s') := by
  refine ⟨?_, ?_, ?_⟩
  · intro s u now la lo acc sp hdg user hu hty
    have he : update_deliverer_location s u now la lo acc sp hdg =
        .error .accessDenied := by
      unfold update_deliverer_location
      rw [hu]
      dsimp only
      rw [if_pos (by simpa using hty)]
    exact ⟨he,
      applyOp_of_error
        (show opResult s (.updateLoc u now la lo acc sp hdg) =
          .error .accessDenied from he)⟩
  · intro s u now la lo acc sp hdg hoff
    rcases update_loc_offline hoff with he | he
    · exact ⟨Or.inl he,
        applyOp_of_error
          (show opResult s (.updateLoc u now la lo acc sp hdg) =
            .error .accessDenied from he)⟩
    · exact ⟨Or.inr he,
        applyOp_of_error
          (show opResult s (.updateLoc u now la lo acc sp hdg) =
            .error .mustBeOnline from he)⟩
  · intro s u now la lo acc sp hdg user d hu hty hd hon
    exact update_loc_eq_ok hu hty hd hon

/-- A state with an OFFLINE approved deliverer (user 1). -/
def c9OffState : SysState :=
  { users := [⟨1, "deliverer"⟩], stores := [],
    deliverers := [⟨5, 1, false, true, 0⟩], orders := [],
    delivery_requests := [], locations := [], trackings := [] }

/-- C9 witness: the offline deliverer's update is rejected and writes
nothing, while the online (unapproved) deliverer's update succeeds. -/
theorem C9_update_location_precondition_witness :
    ((update_deliverer_location c9OffState 1 0 1 2 none none none =
        .error .accessDenied ∨
      update_deliverer_location c9OffState 1 0 1 2 none none none =
        .error .mustBeOnline) ∧
      applyOp c9OffState (.updateLoc 1 0 1 2 none none none) = c9OffState) ∧
    ∃ s', update_deliverer_location c9State 1 0 1 2 none none none =
      .ok s' := by
  refine ⟨?_, ?_⟩
  · exact C9_update_location_precondition.2.1 c9OffState 1 0 1 2 none none
      none (by intro d hd; cases hd; rfl)
  · exact C9_update_location_precondition.2.2 c9State 1 0 1 2 none none none
      ⟨1, "deliverer"⟩ ⟨5, 1, true, false, 0⟩ rfl rfl rfl rfl

/-- A state whose order 10 belongs to client 1. -/
def c10State : SysState :=
  { users := [⟨1, "client"⟩], stores := [], deliverers := [],
    orders := [⟨10, 1, 3, none, "pending"⟩], delivery_requests := [],
    locations := [], trackings := [] }

/-- C10 counterexample: client 1 is outside the claim's three classes (it
cannot update its order's status — access denied), yet `track_order` grants
it the tracking read: the tracking gate is NOT the same rule as the
status-update gate. -/
theorem C10_counterexample :
    has_permission c10State ⟨1, "client"⟩ ⟨10, 1, 3, none, "pending"⟩ =
      false ∧
    update_order_status c10State 1 10 "accepted" = .error .accessDenied ∧
    track_order c10State 1 10 = .ok ⟨"pending", none, none, []⟩ := by
  exact ⟨rfl, rfl, rfl⟩

/-- C10 (amended): a status update by a caller without permission (not an
admin, not the owning store, not the assigned deliverer) is rejected with the
403 and the session is unchanged; permission is exactly membership in those
three classes; a tracking read succeeds exactly for the callers its
`has_access` admits — and that gate is the status-update gate extended with
the order's own client. -/
theorem C10_ownership_gating :
    (∀ s u oid ns (user : User) (o : Order), findOrder s oid = some o →
      ns ≠ "" → findUser s u = some user → has_permission s user o = false →
      update_order_status s u oid ns = .error .accessDenied ∧
      applyOp s (.updateStatus u oid ns) = s) ∧
    (∀ s (user : User) (o : Order), has_permission s user o = true ↔
      (user.user_type = "admin" ∨
        (user.user_type = "store" ∧
          ∃ st, findStoreByUser s user.id = some st ∧ o.store_id = st.id) ∨
        (user.user_type = "deliverer" ∧ o.deliverer_id = some user.id))) ∧
    (∀ s u oid (user : User) (o : Order), findUser s u = some user →
      findOrder s oid = some o →
      ((∃ t, track_order s u oid = .ok t) ↔ track_access s user o = true)) ∧
    (∀ s (user : User) (o : Order), track_access s user o =
      (has_permission s user o ||
        (user.user_type == "client" && o.client_id == user.id))) := by
  refine ⟨?_, ?_, ?_, ?_⟩
  · intro s u oid ns user o hord hns hu hperm
    have he := update_order_status_eq_denied hord hns hu hperm
    exact ⟨he,
      applyOp_of_error
        (show opResult s (.updateStatus u oid ns) = .error .accessDenied
          from he)⟩
  · intro s user o
    unfold has_permission
    by_cases h1 : user.user_type = "store"
    · rw [if_pos (by simp [h1])]
      rcases hst : findStoreByUser s user.id with _ | st
      · constructor
        · intro hfalse
          simp at hfalse
        · rintro (hadm | ⟨-, st2, hst2, -⟩ | ⟨hdel, -⟩)
          · exact absurd (h1.symm.trans hadm) (by decide)
          · cases hst2
          · exact absurd (h1.symm.trans hdel) (by decide)
      · constructor
        · intro hbeq
          exact Or.inr (Or.inl ⟨h1, st, rfl, by simpa using hbeq⟩)
        · rintro (hadm | ⟨-, st2, hst2, heq⟩ | ⟨hdel, -⟩)
          · exact absurd (h1.symm.trans hadm) (by decide)
          · cases hst2
            simpa using heq
          · exact absurd (h1.symm.trans hdel) (by decide)
    · rw [if_neg (by simp [h1])]
      by_cases h2 : user.user_type = "deliverer"
      · rw [if_pos (by simp [h2])]
        constructor
        · intro hbeq
          exact Or.inr (Or.inr ⟨h2, by simpa using hbeq⟩)
        · rintro (hadm | ⟨hstore, -⟩ | ⟨-, heq⟩)
          · exact absurd (h2.symm.trans hadm) (by decide)
          · exact absurd hstore h1
          · simpa using heq
      · rw [if_neg (by simp [h2])]
        constructor
        · intro hadm
          exact Or.inl (by simpa using hadm)
        · rintro (hadm | ⟨hstore, -⟩ | ⟨hdel, -⟩)
          · simp [hadm]
          · exact absurd hstore h1
          · exact absurd hdel h2
  · intro s u oid user o hu hord
    unfold track_order
    rw [hu]
    dsimp only
    rw [hord]
    dsimp only
    by_cases hacc : track_access s user o = true
    · rw [if_neg (by simp [hacc])]
      exact ⟨fun _ => hacc, fun _ => ⟨_, rfl⟩⟩
    · rw [if_pos (by simpa using hacc)]
      constructor
      · rintro ⟨t, ht⟩
        exact absurd ht (by simp)
      · intro h
        exact absurd h hacc
  · intro s user o
    unfold track_access has_permission
    by_cases hc : user.user_type = "client"
    · rw [if_pos (by simp [hc])]
      rw [if_neg (by simp [hc]), if_neg (by simp [hc])]
      have : (user.user_type == "admin") = false := by simp [hc]
      rw [this]
      simp [hc]
    · rw [if_neg (by simp [hc])]
      have hcb : (user.user_type == "client") = false := by simp [hc]
      rw [hcb]
      simp

/-- C10 witness: client 1 owns order 10, is denied the status update with no
change, and is granted the tracking read. -/
theorem C10_ownership_gating_witness :
    (update_order_status c10State 1 10 "accepted" = .error .accessDenied ∧
      applyOp c10State (.updateStatus 1 10 "accepted") = c10State) ∧
    ∃ t, track_order c10State 1 10 = .ok t := by
  refine ⟨?_, ?_⟩
  · exact C10_ownership_gating.1 c10State 1 10 "accepted" ⟨1, "client"⟩
      ⟨10, 1, 3, none, "pending"⟩ rfl (by decide) rfl rfl
  · exact (C10_ownership_gating.2.2.1 c10State 1 10 ⟨1, "client"⟩
      ⟨10, 1, 3, none, "pending"⟩ rfl rfl).mpr rfl

/-- The Haversine distance from a point to itself is zero. -/
theorem calculate_distance_self (la lo : ℚ) :
    calculate_distance la lo la lo = 0 := by
  simp only [calculate_distance]
  rw [sub_self, sub_self]
  have h0 : radians 0 = 0 := by
    unfold radians
    ring
  rw [h0]
  norm_num [Real.sin_zero, Real.sqrt_one, Real.sqrt_zero, atan2,
    Real.arctan_zero]

/-- The Haversine distance from the fan-out's fixed placeholder destination
to the point at the same latitude on the opposite meridian is strictly
positive. -/
theorem calculate_distance_antimeridian_pos :
    0 < calculate_distance dest_lat dest_lon dest_lat (dest_lon + 180) := by
  have hdlo : (((dest_lon + 180 : ℚ) : ℝ) - ((dest_lon : ℚ) : ℝ)) = 180 := by
    push_cast
    ring
  simp only [calculate_distance]
  rw [sub_self, hdlo]
  have h0 : radians 0 = 0 := by
    unfold radians
    ring
  have hpi : radians 180 = Real.pi := by
    unfold radians
    field_simp
  rw [h0, hpi]
  set θ := radians ((dest_lat : ℚ) : ℝ) with hθdef
  have hθval : θ = -23.5505 * Real.pi / 180 := by
    rw [hθdef]
    unfold radians
    norm_num [dest_lat]
  have hcos : 0 < Real.cos θ := by
    apply Real.cos_pos_of_mem_Ioo
    constructor
    · rw [hθval]
      nlinarith [Real.pi_pos]
    · rw [hθval]
      nlinarith [Real.pi_pos]
  have hsin : Real.sin θ < 0 := by
    rw [hθval]
    apply Real.sin_neg_of_neg_of_neg_pi_lt
    · nlinarith [Real.pi_pos]
    · nlinarith [Real.pi_pos]
  norm_num [Real.sin_zero, Real.sin_pi_div_two]
  have ha : (0:ℝ) < Real.cos θ * Real.cos θ := mul_pos hcos hcos
  have h1a : (0:ℝ) < 1 - Real.cos θ * Real.cos θ := by
    nlinarith [Real.sin_sq_add_cos_sq θ,
      mul_pos (neg_pos.mpr hsin) (neg_pos.mpr hsin)]
  have hx : 0 < Real.sqrt (1 - Real.cos θ * Real.cos θ) := Real.sqrt_pos.mpr h1a
  have hy : 0 < Real.sqrt (Real.cos θ * Real.cos θ) := Real.sqrt_pos.mpr ha
  have hat : 0 < atan2 (Real.sqrt (Real.cos θ * Real.cos θ))
      (Real.sqrt (1 - Real.cos θ * Real.cos θ)) := by
    unfold atan2
    rw [if_pos hx]
    have harg : 0 < Real.sqrt (Real.cos θ * Real.cos θ) /
        Real.sqrt (1 - Real.cos θ * Real.cos θ) := div_pos hy hx
    have hmono := Real.arctan_strictMono harg
    rwa [Real.arctan_zero] at hmono
  nlinarith [hat]

/-- Modelled from the claim's words: the value a tracking breadcrumb should
carry if `distance_remaining` were "the GeoMath (Haversine) distance from the
reported position to that order's destination", for an order destined at
`(destLa, destLo)`.  The source `Order` rows carry no destination
coordinates, so this definition exists only to compare the claim against the
code, which uses the fixed placeholder `(dest_lat, dest_lon)` for every
order. -/
noncomputable def claimed_distance_remaining (la lo destLa destLo : ℚ) : ℝ :=
  calculate_distance la lo destLa destLo

/-- A state with deliverer 1 carrying order 10 in "delivering". -/
def c8State : SysState :=
  { users := [⟨1, "deliverer"⟩], stores := [],
    deliverers := [⟨5, 1, true, true, 0⟩],
    orders := [⟨10, 2, 3, some 1, "delivering"⟩], delivery_requests := [],
    locations := [], trackings := [] }

/-- The session committed by the C8 counterexample update: the deliverer
reports from exactly the placeholder point, so the breadcrumb stores
distance 0. -/
noncomputable def c8After : SysState :=
  { c8State with
    locations := [⟨1, dest_lat, dest_lon, none, none, none, true⟩],
    trackings := [⟨10, 1, dest_lat, dest_lon, "in_transit",
      estimate_arrival_time 0
        (calculate_distance dest_lat dest_lon dest_lat dest_lon),
      calculate_distance dest_lat dest_lon dest_lat dest_lon⟩] }

/-- C8 counterexample: the deliverer reports from the placeholder point; the
appended breadcrumb stores `distance_remaining = 0` no matter where order 10
is actually destined, while the claimed distance to the order's destination —
taken here as the same-latitude point on the opposite meridian — is strictly
positive.  The stored value is the distance to the fixed placeholder, not to
"that order's destination". -/
theorem C8_counterexample :
    update_deliverer_location c8State 1 0 dest_lat dest_lon none none none =
      .ok c8After ∧
    c8After.trackings.map OrderTracking.distance_remaining =
      [calculate_distance dest_lat dest_lon dest_lat dest_lon] ∧
    calculate_distance dest_lat dest_lon dest_lat dest_lon = 0 ∧
    0 < claimed_distance_remaining dest_lat dest_lon dest_lat
      (dest_lon + 180) := by
  exact ⟨rfl, rfl, calculate_distance_self dest_lat dest_lon,
    calculate_distance_antimeridian_pos⟩

/-- C8 (amended): a successful location update appends exactly one
"in_transit" breadcrumb per order of the caller in "delivering" status —
with `distance_remaining` the Haversine distance from the reported position
to the fixed placeholder destination used for every order, and
`estimated_arrival` derived from that distance — and appends nothing for any
other order; when the caller has no in-flight orders the fan-out is empty
and the update still succeeds. -/
theorem C8_tracking_fanout :
    (∀ s u (now : ℝ) (la lo : ℚ) (acc sp hdg : Option ℚ) s',
      update_deliverer_location s u now la lo acc sp hdg = .ok s' →
      s'.trackings = s.trackings ++
        (s.orders.filter (fun o =>
          o.deliverer_id == some u && o.status == "delivering")).map
          (fun o => ⟨o.id, u, la, lo, "in_transit",
            estimate_arrival_time now
              (calculate_distance la lo dest_lat dest_lon),
            calculate_distance la lo dest_lat dest_lon⟩)) ∧
    (∀ s u (now : ℝ) (la lo : ℚ) (acc sp hdg : Option ℚ) s',
      update_deliverer_location s u now la lo acc sp hdg = .ok s' →
      s.orders.filter (fun o =>
        o.deliverer_id == some u && o.status == "delivering") = [] →
      s'.trackings = s.trackings) ∧
    (∀ s u (now : ℝ) (la lo : ℚ) (acc sp hdg : Option ℚ) (user : User)
      (d : Deliverer), findUser s u = some user →
      user.user_type = "deliverer" → findDelivererByUser s u = some d →
      d.is_online = true →
      ∃ s', update_deliverer_location s u now la lo acc sp hdg = .ok s') := by
  have hshape : ∀ (s : SysState) (u : Nat) (now : ℝ) (la lo : ℚ)
      (acc sp hdg : Option ℚ) (s' : SysState),
      update_deliverer_location s u now la lo acc sp hdg = .ok s' →
      s'.trackings = s.trackings ++
        (s.orders.filter (fun o =>
          o.deliverer_id == some u && o.status == "delivering")).map
          (fun o => ⟨o.id, u, la, lo, "in_transit",
            estimate_arrival_time now
              (calculate_distance la lo dest_lat dest_lon),
            calculate_distance la lo dest_lat dest_lon⟩) := by
    intro s u now la lo acc sp hdg s' h
    obtain ⟨-, -, -, -, -, -, rfl⟩ := update_deliverer_location_ok h
    rfl
  refine ⟨hshape, ?_, ?_⟩
  · intro s u now la lo acc sp hdg s' h hempty
    rw [hshape s u now la lo acc sp hdg s' h, hempty]
    simp
  · intro s u now la lo acc sp hdg user d hu hty hd hon
    exact update_loc_eq_ok hu hty hd hon

/-- A state with an online deliverer that has no in-flight orders. -/
def c8IdleState : SysState :=
  { users := [⟨1, "deliverer"⟩], stores := [],
    deliverers := [⟨5, 1, true, true, 0⟩], orders := [],
    delivery_requests := [], locations := [], trackings := [] }

/-- C8 witness: the fan-out equation instantiated at the counterexample
state, and a successful update for a deliverer with no in-flight orders. -/
theorem C8_tracking_fanout_witness :
    c8After.trackings = c8State.trackings ++
      (c8State.orders.filter (fun o =>
        o.deliverer_id == some 1 && o.status == "delivering")).map
        (fun o => ⟨o.id, 1, dest_lat, dest_lon, "in_transit",
          estimate_arrival_time 0
            (calculate_distance dest_lat dest_lon dest_lat dest_lon),
          calculate_distance dest_lat dest_lon dest_lat dest_lon⟩) ∧
    ∃ s', update_deliverer_location c8IdleState 1 0 1 2 none none none =
      .ok s' := by
  refine ⟨?_, ?_⟩
  · exact C8_tracking_fanout.1 c8State 1 0 dest_lat dest_lon none none none
      c8After rfl
  · exact C8_tracking_fanout.2.2 c8IdleState 1 0 1 2 none none none
      ⟨1, "deliverer"⟩ ⟨5, 1, true, true, 0⟩ rfl rfl rfl rfl

end Wendy
